import Mathlib

/-
Verification of the forecast-and-optimization core
(backend/forecast-and-optimization/app/services): a shallow embedding of
ForecastEngine, OptimizationEngine, ForecastService and MLModelManager,
with theorems settling the behavioural claims about them.

Modelling conventions:
  * Python floats are modelled as exact rationals (ℚ); `round(x, n)`
    (banker's rounding) is `pyRound`.
  * Timestamps are hours since an epoch falling on a Monday 00:00, as ℕ
    (the code only ever reads `.hour` and `.weekday()` of its hourly
    timestamps, and adds whole hours); ages and validity windows are ℚ
    hours.
  * `np.random.normal(0, σ)` calls are modelled by an injected draw
    `noise : ℕ → ℚ` giving the realized perturbation of each step, so
    theorems quantify over every draw.
  * External collaborators (measurement source, forecast store, core
    metadata) are modelled as explicit inputs / explicitly threaded state.
-/

/-! ### Python primitives -/

/-- Round half to even at integer precision: the tie-breaking rule of
Python's builtin `round`. -/
def roundHalfEven (x : ℚ) : ℤ :=
  let n := Int.floor x
  let r := x - n
  if r < 1/2 then n
  else if 1/2 < r then n + 1
  else if n % 2 = 0 then n else n + 1

/-- Python's `round(x, d)` on our exact-rational model of floats. -/
def pyRound (x : ℚ) (d : ℕ) : ℚ :=
  (roundHalfEven (x * (10 ^ d : ℕ)) : ℚ) / (10 ^ d : ℕ)

/-- ASCII decimal digit. -/
def isAsciiDigit (c : Char) : Bool := decide ('0' ≤ c) && decide (c ≤ '9')

/-- Whitespace stripped by Python's `int(str)` (ASCII fragment). -/
def isPySpace (c : Char) : Bool :=
  c = ' ' || c = '\t' || c = '\n' || c = '\r' || c = '\x0b' || c = '\x0c'

/-- Strip `isPySpace` characters from both ends. -/
def stripChars (l : List Char) : List Char :=
  ((l.dropWhile isPySpace).reverse.dropWhile isPySpace).reverse

def digitVal (c : Char) : ℕ := c.toNat - ('0').toNat

/-- After the leading digit: digits with single underscores strictly
between digits, as Python's integer-literal grammar allows. -/
def digitTail (acc : ℕ) : List Char → Option ℕ
  | [] => some acc
  | c :: rest =>
    if isAsciiDigit c then digitTail (10 * acc + digitVal c) rest
    else if c = '_' then
      match rest with
      | [] => none
      | d :: rest2 =>
        if isAsciiDigit d then digitTail (10 * acc + digitVal d) rest2 else none
    else none

/-- A nonempty run of digits (with legal underscores), fully consumed. -/
def digitPart : List Char → Option ℕ
  | [] => none
  | c :: rest => if isAsciiDigit c then digitTail (digitVal c) rest else none

/-- Strip the optional sign, returning (is-negative, rest). -/
def afterSign : List Char → Bool × List Char
  | [] => (false, [])
  | c :: r =>
    if c = '+' then (false, r)
    else if c = '-' then (true, r)
    else (false, c :: r)

/-- Python's `int(str)` in base 10 (ASCII fragment): optional surrounding
whitespace, optional sign, then a digit run with legal underscores;
`none` models the `ValueError` raised on anything else. -/
def pyInt (l : List Char) : Option ℤ :=
  let s := stripChars l
  let p := afterSign s
  match digitPart p.2 with
  | some n => some (if p.1 then -(n : ℤ) else (n : ℤ))
  | none => none

/-- Python's `str.upper()` on the ASCII characters the horizon strings use. -/
def upperChar (c : Char) : Char :=
  if decide ('a' ≤ c) && decide (c ≤ 'z') then Char.ofNat (c.toNat - 32) else c

/-! ### Clock model -/

/-- `.hour` of a timestamp counted in hours since a midnight epoch. -/
def hourOf (t : ℕ) : ℕ := t % 24

/-- `.weekday()` (Monday = 0) of a timestamp counted in hours since an
epoch falling on a Monday. -/
def weekdayOf (t : ℕ) : ℕ := t / 24 % 7

/-! ### ForecastEngine: horizon parsing (forecast_engine.py, _parse_horizon) -/

/-- `ForecastEngine._parse_horizon`: upper-case, a trailing "H" is hours,
a trailing "D" is days times 24, anything else defaults to 24;
`Except.error` models the `ValueError` that `int()` raises on a
non-integer prefix. -/
def parse_horizon (horizon : String) : Except Unit ℤ :=
  let u := horizon.data.map upperChar
  match u.getLast? with
  | some 'H' =>
    match pyInt u.dropLast with
    | some n => .ok n
    | none => .error ()
  | some 'D' =>
    match pyInt u.dropLast with
    | some n => .ok (n * 24)
    | none => .error ()
  | _ => .ok 24

/-- The inline horizon parsing of `ForecastService.request_forecast`
(step 4: validity window), expressed as the width `valid_to - valid_from`
in hours. It matches on the raw string (no upper-casing); a trailing 'D'
contributes `timedelta(days=days)`, i.e. `days * 24` hours. -/
def service_horizon_delta (horizon : String) : Except Unit ℤ :=
  match horizon.data.getLast? with
  | some 'H' =>
    match pyInt horizon.data.dropLast with
    | some n => .ok n
    | none => .error ()
  | some 'D' =>
    match pyInt horizon.data.dropLast with
    | some n => .ok (n * 24)
    | none => .error ()
  | _ => .ok 24

/-! ### ForecastEngine: data preprocessing and prediction strategies -/

/-- A point of the measurement history ("power_w" readings): timestamp in
hours since the Monday epoch, value in watts. -/
structure Measurement where
  timestamp : ℕ
  value : ℚ
deriving DecidableEq

/-- A point of a forecast series ({timestamp, value, confidence}). -/
structure ForecastPoint where
  timestamp : ℕ
  value : ℚ
  confidence : ℚ
deriving DecidableEq

/-- `np.mean` of a list (unreachable empty case mapped to 0). -/
def listMean (l : List ℚ) : ℚ := l.sum / l.length

/-- `.tail(24)`: the last (up to) 24 entries. -/
def tail24 (l : List ℚ) : List ℚ := l.drop (l.length - 24)

/-- The hourly mean of the measurements falling in bucket `h` of the
`resample('1h')` step, `none` when the bucket is empty (a NaN row). -/
def bucketMean (ms : List Measurement) (h : ℕ) : Option ℚ :=
  let vs := (ms.filter (fun m => m.timestamp == h)).map (fun m => m.value)
  if vs.isEmpty then none else some (listMean vs)

/-- First known value of the remaining buckets (the right interpolation
anchor). -/
def nextKnown : List (ℕ × Option ℚ) → Option (ℕ × ℚ)
  | [] => none
  | (t, some v) :: _ => some (t, v)
  | (_, none) :: rest => nextKnown rest

/-- `interpolate(method='time')` on the hourly grid: linear interpolation
of the empty buckets between their neighbouring known values.  On the
grid built by `preprocess_data` the first and last buckets are always
known, so the fallback arms are unreachable. -/
def interpolateRows : Option (ℕ × ℚ) → List (ℕ × Option ℚ) → List Measurement
  | _, [] => []
  | _, (t, some v) :: rest => ⟨t, v⟩ :: interpolateRows (some (t, v)) rest
  | prev, (t, none) :: rest =>
    let v : ℚ :=
      match prev, nextKnown rest with
      | some (tp, vp), some (tn, vn) =>
        vp + (vn - vp) * (((t : ℚ) - (tp : ℚ)) / ((tn : ℚ) - (tp : ℚ)))
      | some (_, vp), none => vp
      | none, some (_, vn) => vn
      | none, none => 0
    ⟨t, v⟩ :: interpolateRows (some (t, v)) rest

/-- `ForecastEngine._preprocess_data`: sort by timestamp, resample to
hourly means over the observed span, fill gaps by time-weighted (linear)
interpolation.  The derived feature columns (hour, day_of_week,
is_weekend, rolling statistics) of the source DataFrame are recomputed at
their use sites (`hourOf`, `weekdayOf`, `tail24`). -/
def preprocess_data (measurements : List Measurement) : List Measurement :=
  match measurements with
  | [] => []
  | m :: rest =>
    let t0 := rest.foldl (fun a x => min a x.timestamp) m.timestamp
    let t1 := rest.foldl (fun a x => max a x.timestamp) m.timestamp
    interpolateRows none
      ((List.range (t1 + 1 - t0)).map (fun i => (t0 + i, bucketMean measurements (t0 + i))))

/-- `data.index[-1]`, the last observed (hourly) timestamp. -/
def lastTimestamp (data : List Measurement) : ℕ :=
  ((data.getLast?).map (fun m => m.timestamp)).getD 0

/-- `ForecastEngine._forecast_with_lstm` (mock LSTM strategy): one point
per hour starting one hour after the last observed timestamp; base value
is the trailing-24h mean, modulated by a daytime factor (hours 8..18) and
a weekend factor, plus the injected noise draw, floored at zero;
confidence decays linearly from 0.95; accuracy 0.88 - hours/1000. -/
def forecast_with_lstm (data : List Measurement) (hours_ahead : ℤ) (noise : ℕ → ℚ) :
    List ForecastPoint × ℚ :=
  let mean_value := listMean (tail24 (data.map (fun m => m.value)))
  let start := lastTimestamp data + 1
  let series := (List.range hours_ahead.toNat).map (fun i =>
    let t := start + i
    let time_factor : ℚ := if 8 ≤ hourOf t ∧ hourOf t ≤ 18 then 1.2 else 0.8
    let day_factor : ℚ := if weekdayOf t = 5 ∨ weekdayOf t = 6 then 0.85 else 1.0
    let predicted := mean_value * time_factor * day_factor + noise i
    { timestamp := t
      value := max 0 predicted
      confidence := pyRound (0.95 - (i : ℚ) / (hours_ahead : ℚ) * 0.15) 3 })
  (series, 0.88 - (hours_ahead : ℚ) / 1000)

/-- `ForecastEngine._forecast_with_xgboost` (mock XGBoost strategy): like
the LSTM one but based on the last rolling 24h mean (which at the last
row equals the trailing-24h mean), factors 1.3/0.7 and 0.8, confidence
decaying from 0.90, accuracy 0.85 - hours/1200. -/
def forecast_with_xgboost (data : List Measurement) (hours_ahead : ℤ) (noise : ℕ → ℚ) :
    List ForecastPoint × ℚ :=
  let rolling_mean := listMean (tail24 (data.map (fun m => m.value)))
  let start := lastTimestamp data + 1
  let series := (List.range hours_ahead.toNat).map (fun i =>
    let t := start + i
    let hour_factor : ℚ := if 8 ≤ hourOf t ∧ hourOf t ≤ 18 then 1.3 else 0.7
    let weekend_factor : ℚ := if weekdayOf t = 5 ∨ weekdayOf t = 6 then 0.8 else 1.0
    let predicted := rolling_mean * hour_factor * weekend_factor + noise i
    { timestamp := t
      value := max 0 predicted
      confidence := pyRound (0.90 - (i : ℚ) / (hours_ahead : ℚ) * 0.20) 3 })
  (series, 0.85 - (hours_ahead : ℚ) / 1200)

/-- `ForecastEngine.validate_results`: false when the accuracy is below
the configured threshold, any value is negative, or any value exceeds
five times the series mean; true otherwise. -/
def validate_results (forecast_values : List ForecastPoint) (accuracy : ℚ)
    (accuracy_threshold : ℚ) : Bool :=
  if accuracy < accuracy_threshold then false
  else
    let values := forecast_values.map (fun f => f.value)
    if values.any (fun v => decide (v < 0)) then false
    else
      let mean_value := listMean values
      if values.any (fun v => decide (mean_value * 5 < v)) then false
      else true

/-- The engine-side inputs `generate_forecast` consumes: the measurement
history the MeasurementSource returns for the trailing 30 days, and the
injected randomness of the prediction strategies. -/
structure EngineEnv where
  measurements : List Measurement
  noise : ℕ → ℚ

/-- The exceptions crossing the service boundary. -/
inductive PyError
  | valueError
  | insufficientData
  | modelNotTrained
deriving DecidableEq

/-- `ForecastEngine.generate_forecast` with `model_type="auto"`: parse
the horizon, require at least 168 measurements (else
`InsufficientDataError`), preprocess, pick LSTM above 24 hours else
XGBoost, predict, and return the series, accuracy and model label.  The
quality gate (`validate_results`) is consulted but only logs: the result
is returned regardless of its verdict. -/
def generate_forecast_checked (env : EngineEnv) (hours_ahead : ℤ) :
    Except PyError (List ForecastPoint × ℚ × String) :=
  if env.measurements.length < 24 * 7 then .error .insufficientData
  else
    let processed := preprocess_data env.measurements
    let model_type := if 24 < hours_ahead then "LSTM" else "XGBoost"
    let run :=
      if model_type == "LSTM" then forecast_with_lstm processed hours_ahead env.noise
      else forecast_with_xgboost processed hours_ahead env.noise
    -- Step 6 of the source only prints a warning when
    -- `validate_results run.1 run.2` is false; nothing branches on it.
    .ok (run.1, run.2, model_type)

def generate_forecast (env : EngineEnv) (horizon : String) :
    Except PyError (List ForecastPoint × ℚ × String) :=
  match parse_horizon horizon with
  | .error _ => .error .valueError
  | .ok hours_ahead => generate_forecast_checked env hours_ahead

/-! ### OptimizationEngine (optimization_engine.py) -/

/-- Time-of-use pricing of `OptimizationEngine.__init__` (zł/kWh). -/
def peak_rate : ℚ := 1.05

def off_peak_rate : ℚ := 0.65

def super_off_peak_rate : ℚ := 0.45

/-- `constraints['min_savings_threshold']`: minimum savings (zł) for a
recommendation to be emitted. -/
def min_savings_threshold : ℚ := 20.0

/-- An `OptimizationRecommendation`.  The human-readable `description`
and the `parameters` dict (both derived from fields already present
here) are elided. -/
structure OptimizationRecommendation where
  action_type : String
  estimated_savings : ℚ
  estimated_savings_pct : ℚ
  priority : ℕ
  window_start : ℚ
  window_end : ℚ
deriving DecidableEq

/-- `forecast['value'] / 1000`: watts to kilowatts. -/
def kwOf (p : ForecastPoint) : ℚ := p.value / 1000

/-- The peak-hours band of `_analyze_load_shifting`: `9 <= hour < 21`. -/
def inPeakBand (p : ForecastPoint) : Bool :=
  decide (9 ≤ hourOf p.timestamp) && decide (hourOf p.timestamp < 21)

/-- One step of the stable descending sort (`peak_hours.sort(key=value,
reverse=True)`) by kilowatt value. -/
def insertPeakDesc (x : ForecastPoint) : List ForecastPoint → List ForecastPoint
  | [] => [x]
  | y :: ys => if kwOf y < kwOf x then x :: y :: ys else y :: insertPeakDesc x ys

def sortPeakDesc : List ForecastPoint → List ForecastPoint
  | [] => []
  | x :: xs => insertPeakDesc x (sortPeakDesc xs)

/-- The emission step of `_analyze_load_shifting` on the top (maximal)
peak-band point: if it exceeds 80 kW, propose shifting 20% of it to the
super-off-peak band, with savings `shift * (peak - super_off_peak)`,
emitted only when the savings reach the minimum threshold; priority 1. -/
def shift_from_top (top : ForecastPoint) : List OptimizationRecommendation :=
  if 80 < kwOf top then
    let shift_amount := kwOf top * 0.20
    let savings := shift_amount * (peak_rate - super_off_peak_rate)
    if min_savings_threshold ≤ savings then
      [{ action_type := "shift_load"
         estimated_savings := pyRound savings 2
         estimated_savings_pct := pyRound (savings / (kwOf top * peak_rate) * 100) 1
         priority := 1
         window_start := top.timestamp
         window_end := (top.timestamp : ℚ) + 1 }]
    else []
  else []

/-- `OptimizationEngine._analyze_load_shifting`: collect the points
whose hour lies in [9, 21), take the one of maximal kilowatt value and
emit via `shift_from_top`.  (The `off_peak_hours` list the source also
collects is never read.) -/
def analyze_load_shifting (forecast_values : List ForecastPoint) :
    List OptimizationRecommendation :=
  let peak_hours := forecast_values.filter inPeakBand
  match sortPeakDesc peak_hours with
  | [] => []
  | top :: _ => shift_from_top top

/-- The emission step of `_analyze_peak_reduction` given the window's
maximum demand and mean demand (both kW) and its first peaking point:
when the peak exceeds 1.3 times the mean, propose halving the excess
above 1.2 times the mean, at 60 zł/kW/month, daily figure over 30;
priority 2. -/
def peak_reduction_core (max_demand avg_demand : ℚ) (peak : ForecastPoint) :
    List OptimizationRecommendation :=
  if avg_demand * 1.3 < max_demand then
    let reduction_target := (max_demand - avg_demand * 1.2) * 0.5
    let monthly_savings := reduction_target * 60
    let daily_savings := monthly_savings / 30
    if min_savings_threshold ≤ daily_savings then
      [{ action_type := "reduce_peak_demand"
         estimated_savings := pyRound daily_savings 2
         estimated_savings_pct := pyRound (reduction_target / max_demand * 100) 1
         priority := 2
         window_start := (peak.timestamp : ℚ) - 1/2
         window_end := (peak.timestamp : ℚ) + 1/2 }]
    else []
  else []

/-- `OptimizationEngine._analyze_peak_reduction` over the window:
`max()` over an empty window raises (`Except.error`). -/
def analyze_peak_reduction (forecast_values : List ForecastPoint) :
    Except Unit (List OptimizationRecommendation) :=
  match forecast_values with
  | [] => .error ()
  | p :: ps =>
    .ok (peak_reduction_core (ps.foldl (fun a q => max a q.value) p.value / 1000)
      (listMean (forecast_values.map (fun f => f.value)) / 1000)
      (ps.foldl (fun best q => if best.value < q.value then q else best) p))

/-- `OptimizationEngine._analyze_temperature_optimization`: scan for the
first point in the low-occupancy band (hour ≥ 22 or < 6, or a weekend);
45% of the consumption baseline is HVAC, relaxing setpoints saves 10% of
it at the super-off-peak rate; emit (and stop) once the threshold is
met; priority 3. -/
def analyze_temperature_optimization (forecast_values : List ForecastPoint)
    (current_consumption : ℚ) : List OptimizationRecommendation :=
  match forecast_values with
  | [] => []
  | p :: rest =>
    if (22 ≤ hourOf p.timestamp ∨ hourOf p.timestamp < 6)
        ∨ (weekdayOf p.timestamp = 5 ∨ weekdayOf p.timestamp = 6) then
      let hvac_portion := current_consumption * 0.45
      let savings := hvac_portion * 0.10 * super_off_peak_rate
      if min_savings_threshold ≤ savings then
        [{ action_type := "adjust_temperature"
           estimated_savings := pyRound savings 2
           estimated_savings_pct := 10.0
           priority := 3
           window_start := p.timestamp
           window_end := (p.timestamp : ℚ) + 1 }]
      else analyze_temperature_optimization rest current_consumption
    else analyze_temperature_optimization rest current_consumption

/-- The sort key order of `generate_recommendations`: priority ascending,
savings descending. -/
def recLe (a b : OptimizationRecommendation) : Bool :=
  decide (a.priority < b.priority)
    || (decide (a.priority = b.priority) && decide (b.estimated_savings ≤ a.estimated_savings))

/-- Stable insertion step of the final `recommendations.sort`. -/
def insertRec (x : OptimizationRecommendation) :
    List OptimizationRecommendation → List OptimizationRecommendation
  | [] => [x]
  | y :: ys => if recLe x y then x :: y :: ys else y :: insertRec x ys

def sortRecs : List OptimizationRecommendation → List OptimizationRecommendation
  | [] => []
  | x :: xs => insertRec x (sortRecs xs)

/-- `OptimizationEngine.generate_recommendations`: run the three analyses
over the first `time_range_hours` forecast points, concatenate, and sort
by (priority, -savings).  The error propagates `max()`'s `ValueError` on
an empty window. -/
def generate_recommendations (forecast_values : List ForecastPoint)
    (current_consumption : ℚ) (time_range_hours : ℕ) :
    Except Unit (List OptimizationRecommendation) :=
  let window := forecast_values.take time_range_hours
  let load_shift_recs := analyze_load_shifting window
  match analyze_peak_reduction window with
  | .error e => .error e
  | .ok peak_recs =>
    let temp_recs := analyze_temperature_optimization window current_consumption
    .ok (sortRecs (load_shift_recs ++ peak_recs ++ temp_recs))

/-- The dictionary `calculate_savings` returns.  `by_priority` is its
`{priority: sum}` dict as an association list in key order (empty for an
empty input, keys 1..5 otherwise). -/
structure SavingsSummary where
  total_daily : ℚ
  total_monthly : ℚ
  total_annual : ℚ
  by_priority : List (ℕ × ℚ)
deriving DecidableEq

/-- `OptimizationEngine.calculate_savings`: all-zero summary for an empty
list; otherwise the 2-decimal roundings of the savings sum, of 30 times
it and of 365 times it, with the per-priority sums for priorities 1..5
(not rounded in the source). -/
def calculate_savings (recommendations : List OptimizationRecommendation) :
    SavingsSummary :=
  if recommendations.isEmpty then
    { total_daily := 0, total_monthly := 0, total_annual := 0, by_priority := [] }
  else
    let total_daily := (recommendations.map (fun r => r.estimated_savings)).sum
    let by_priority := [1, 2, 3, 4, 5].map (fun p =>
      (p, ((recommendations.filter (fun r => r.priority == p)).map
            (fun r => r.estimated_savings)).sum))
    { total_daily := pyRound total_daily 2
      total_monthly := pyRound (total_daily * 30) 2
      total_annual := pyRound (total_daily * 365) 2
      by_priority := by_priority }

/-! ### ForecastService (forecast_service.py) -/

/-- A persisted `ForecastData` record as the DAC returns it: id, type,
horizon, issue time (hours), series, validity window, the
`model_meta` dict ('algo'/'ver' keys as options), and the
`scope['buildingId']` entry. -/
structure ForecastData where
  id : String
  ftype : String
  horizon : String
  issued_at : ℚ
  series_item : List ForecastPoint
  valid_from : ℚ
  valid_to : ℚ
  meta_algo : Option String
  meta_ver : Option String
  scope_building : Option String
deriving DecidableEq

/-- The caller-facing `ForecastResult`. -/
structure ForecastResult where
  forecast_id : String
  building_id : String
  forecast_type : String
  horizon : String
  values : List ForecastPoint
  accuracy : ℚ
  generated_at : ℚ
  valid_from : ℚ
  valid_to : ℚ
  model_used : String
  model_version : String
deriving DecidableEq

/-- `ForecastService._convert_to_forecast_result`: assemble a
`ForecastResult` from a stored record.  The accuracy is the hardcoded
0.88 of the source ("In production: extract from model_meta"); a missing
'algo' defaults to "LSTM", a missing 'ver' to "1.4.2". -/
def convert_to_forecast_result (fd : ForecastData) : ForecastResult :=
  { forecast_id := fd.id
    building_id := fd.scope_building.getD ""
    forecast_type := fd.ftype
    horizon := fd.horizon
    values := fd.series_item
    accuracy := 0.88
    generated_at := fd.issued_at
    valid_from := fd.valid_from
    valid_to := fd.valid_to
    model_used := fd.meta_algo.getD "LSTM"
    model_version := fd.meta_ver.getD "1.4.2" }

/-- A `ForecastRequest`. -/
structure ForecastRequest where
  building_id : String
  horizon : String
  forecast_type : String
  requested_by : String
deriving DecidableEq

/-- A record created in the ForecastStore by
`forecast_write.create_forecast`. -/
structure CreatedForecast where
  forecast_type : String
  horizon : String
  building_id : String
  requested_by : String
  series_data : List ForecastPoint
  valid_from : ℚ
  valid_to : ℚ
  model_algorithm : String
  model_version : String
deriving DecidableEq

/-- The collaborators `request_forecast` consults: the building lookup of
CoreDb, the latest matching record of the ForecastStore, the clock, the
engine's inputs, and the `MLModelManager.model_versions` registry. -/
structure ServiceEnv where
  building_exists : Bool
  latest_forecast : Option ForecastData
  now : ℚ
  engine : EngineEnv
  model_versions : String → String → Option String

/-- What one `request_forecast` call leaves behind: its outcome, the
ForecastStore contents after the call, and how many engine computations
(`ForecastEngine.generate_forecast` calls) it made. -/
structure RequestOutcome where
  result : Except PyError ForecastResult
  store : List CreatedForecast
  engine_calls : ℕ

/-- Steps 5-6 of `request_forecast` once the validity window `delta` is
known: persist the forecast (the store issues the id from its size) and
assemble the result. -/
def request_forecast_persist (env : ServiceEnv) (store : List CreatedForecast)
    (req : ForecastRequest) (forecast_values : List ForecastPoint) (accuracy : ℚ)
    (model_used : String) (delta : ℤ) : RequestOutcome :=
  let valid_from := env.now
  let valid_to := env.now + (delta : ℚ)
  let model_version := (env.model_versions req.building_id model_used).getD "1.4.2"
  let forecast_id := "fc-" ++ toString store.length
  let record : CreatedForecast :=
    { forecast_type := req.forecast_type
      horizon := req.horizon
      building_id := req.building_id
      requested_by := req.requested_by
      series_data := forecast_values
      valid_from := valid_from
      valid_to := valid_to
      model_algorithm := model_used
      model_version := model_version }
  ⟨.ok { forecast_id := forecast_id
         building_id := req.building_id
         forecast_type := req.forecast_type
         horizon := req.horizon
         values := forecast_values
         accuracy := accuracy
         generated_at := env.now
         valid_from := valid_from
         valid_to := valid_to
         model_used := model_used
         model_version := model_version },
   store ++ [record], 1⟩

/-- Step 4 of `request_forecast`: the service's inline horizon parsing
(whose `int()` may raise) followed by persistence. -/
def request_forecast_store (env : ServiceEnv) (store : List CreatedForecast)
    (req : ForecastRequest) (forecast_values : List ForecastPoint) (accuracy : ℚ)
    (model_used : String) : RequestOutcome :=
  match service_horizon_delta req.horizon with
  | .error _ => ⟨.error .valueError, store, 1⟩
  | .ok delta =>
    request_forecast_persist env store req forecast_values accuracy model_used delta

/-- Steps 3-6 of `request_forecast`: run the engine (re-raising
`InsufficientDataError` as `ValueError`), compute the validity window
with the service's inline parsing, persist the forecast, and assemble
the result. -/
def request_forecast_generate (env : ServiceEnv) (store : List CreatedForecast)
    (req : ForecastRequest) : RequestOutcome :=
  match generate_forecast env.engine req.horizon with
  | .error .insufficientData => ⟨.error .valueError, store, 1⟩
  | .error e => ⟨.error e, store, 1⟩
  | .ok (forecast_values, accuracy, model_used) =>
    request_forecast_store env store req forecast_values accuracy model_used

/-- Step 2 of `request_forecast`: reuse the latest stored forecast when
it is under one hour old, otherwise fall through to generation. -/
def request_forecast_existing (env : ServiceEnv) (store : List CreatedForecast)
    (req : ForecastRequest) : Option ForecastData → RequestOutcome
  | some existing =>
    if env.now - existing.issued_at < 1 then
      ⟨.ok (convert_to_forecast_result existing), store, 0⟩
    else request_forecast_generate env store req
  | none => request_forecast_generate env store req

/-- `ForecastService.request_forecast`: validate the building, reuse the
latest stored forecast when it is under one hour old (no engine call, no
store write), otherwise generate, persist and return a new one. -/
def request_forecast (env : ServiceEnv) (store : List CreatedForecast)
    (req : ForecastRequest) : RequestOutcome :=
  if env.building_exists = false then ⟨.error .valueError, store, 0⟩
  else request_forecast_existing env store req env.latest_forecast

/-- `ForecastService.get_forecast`: fetch by id via the read interface
(modelled by its result) and convert; None stays None. -/
def get_forecast (forecast_data : Option ForecastData) : Option ForecastResult :=
  match forecast_data with
  | none => none
  | some fd => some (convert_to_forecast_result fd)

/-- `ForecastService.get_latest_forecast`: fetch the latest record via
the read interface (modelled by its result) and convert; None stays
None. -/
def get_latest_forecast (forecast_data : Option ForecastData) : Option ForecastResult :=
  match forecast_data with
  | none => none
  | some fd => some (convert_to_forecast_result fd)

/-! ### MLModelManager (ml_model_manager.py) -/

/-- Update or append the binding of `k` in a dict modelled as an
insertion-ordered association list (Python dict semantics). -/
def aupdate {β : Type} (k : String) (v : β) : List (String × β) → List (String × β)
  | [] => [(k, v)]
  | (k2, v2) :: t => if k2 = k then (k, v) :: t else (k2, v2) :: aupdate k v t

/-- A cached model handle.  The mock's `loaded_at` mirror of
`trained_at`, and the `'accuracy'` key the training branch adds but
nothing reads, are elided. -/
structure MLModel where
  model_type : String
  building_id : String
  version : String
  trained_at : ℚ
  training_samples : ℕ
  status : String
deriving DecidableEq

/-- One `performance_metrics` entry, written only by training. -/
structure PerfMetricsEntry where
  accuracy : ℚ
  mape : ℚ
  rmse : ℚ
  training_samples : ℕ
  trained_at : ℚ
deriving DecidableEq

/-- The three module-level dicts of `MLModelManager`. -/
structure ManagerState where
  models : List (String × MLModel)
  model_versions : List (String × List (String × String))
  performance_metrics : List (String × PerfMetricsEntry)
deriving DecidableEq

def initManagerState : ManagerState := ⟨[], [], []⟩

def default_version : String := "1.4.2"

/-- The in-memory cache key `f"{building_id}_{model_type}"`. -/
def cache_key (building_id model_type : String) : String :=
  building_id ++ "_" ++ model_type

/-- `MLModelManager.load_model`: return the cached handle if present,
else cache a fresh placeholder at the default version and record the
version.  `now` is the `datetime.utcnow()` of the call. -/
def load_model (st : ManagerState) (building_id model_type : String) (now : ℚ) :
    MLModel × ManagerState :=
  let key := cache_key building_id model_type
  match st.models.lookup key with
  | some m => (m, st)
  | none =>
    let m : MLModel :=
      { model_type := model_type
        building_id := building_id
        version := default_version
        trained_at := now
        training_samples := 720
        status := "loaded" }
    (m, { st with
          models := aupdate key m st.models
          model_versions :=
            aupdate building_id
              (aupdate model_type default_version
                ((st.model_versions.lookup building_id).getD []))
              st.model_versions })

/-- `f"{major}.{minor}.{patch + 1}"` after `map(int, version.split('.'))`;
the fallback arm models the `ValueError` of a malformed version, which
the versions this manager produces never trigger. -/
def bump_version (v : String) : String :=
  match (v.splitOn ".").map (fun s => pyInt s.data) with
  | [some a, some b, some c] =>
    toString a ++ "." ++ toString b ++ "." ++ toString (c + 1)
  | _ => "malformed"

/-- What `train_model` returns (the wall-clock training duration is not
modelled). -/
structure TrainResult where
  status : String
  model_version : String
  accuracy : ℚ
  training_samples : ℕ
  validation_mape : ℚ
  validation_rmse : ℚ
deriving DecidableEq

/-- `MLModelManager.train_model`: bump the patch component of the current
version (default when none), publish the trained handle, and store the
metrics under `f"{key}_{new_version}"`.  `acc`, `mape` and `rmse` are the
injected draws of the mock's `np.random.uniform` metrics. -/
def train_model (st : ManagerState) (building_id model_type : String)
    (now acc mape rmse : ℚ) : TrainResult × ManagerState :=
  let current_version :=
    (((st.model_versions.lookup building_id).getD []).lookup model_type).getD default_version
  let new_version := bump_version current_version
  let key := cache_key building_id model_type
  let m : MLModel :=
    { model_type := model_type
      building_id := building_id
      version := new_version
      trained_at := now
      training_samples := 720
      status := "trained" }
  let metrics_key := key ++ "_" ++ new_version
  ({ status := "success"
     model_version := new_version
     accuracy := pyRound acc 4
     training_samples := 720
     validation_mape := pyRound mape 2
     validation_rmse := pyRound rmse 2 },
   { models := aupdate key m st.models
     model_versions :=
       aupdate building_id
         (aupdate model_type new_version
           ((st.model_versions.lookup building_id).getD []))
         st.model_versions
     performance_metrics :=
       aupdate metrics_key ⟨acc, mape, rmse, 720, now⟩ st.performance_metrics })

/-- What `get_model_info` returns when the model is cached; `metrics` is
the `performance_metrics.get(key, {})` lookup (`none` models `{}`). -/
structure ModelInfo where
  model_type : String
  version : String
  building_id : String
  status : String
  trained_at : ℚ
  training_samples : ℕ
  metrics : Option PerfMetricsEntry
deriving DecidableEq

/-- `MLModelManager.get_model_info`. -/
def get_model_info (st : ManagerState) (building_id model_type : String) :
    Option ModelInfo :=
  match st.models.lookup (cache_key building_id model_type) with
  | none => none
  | some m =>
    some { model_type := model_type
           version := m.version
           building_id := building_id
           status := m.status
           trained_at := m.trained_at
           training_samples := m.training_samples
           metrics :=
             st.performance_metrics.lookup
               (cache_key building_id model_type ++ "_" ++ m.version) }

/-- The dict `get_model_performance` returns: either the not-found
sentinel (`{'status': 'not_found', ...}`) or a metrics record whose
`status` classifies health. -/
inductive PerfResult
  | not_found
  | metrics (model_type model_version : String) (accuracy mape rmse : ℚ)
      (training_samples : ℕ) (last_trained : ℚ) (status : String)
deriving DecidableEq

/-- `MLModelManager.get_model_performance`: the sentinel when the model
is not cached; otherwise accuracy/mape/rmse from the stored metrics with
0.0 defaults, and status "healthy" exactly when the (defaulted) accuracy
exceeds 0.85. -/
def get_model_performance (st : ManagerState) (building_id model_type : String) :
    PerfResult :=
  match get_model_info st building_id model_type with
  | none => .not_found
  | some info =>
    let acc := (info.metrics.map (fun e => e.accuracy)).getD 0
    .metrics model_type info.version acc
      ((info.metrics.map (fun e => e.mape)).getD 0)
      ((info.metrics.map (fun e => e.rmse)).getD 0)
      info.training_samples info.trained_at
      (if (0.85 : ℚ) < acc then "healthy" else "needs_retraining")

/-- `ForecastService.get_model_performance`: raise `ModelNotTrainedError`
exactly on the sentinel, else pass the metrics through (as the
`ModelPerformanceMetrics` it assembles from them). -/
def service_get_model_performance (st : ManagerState)
    (building_id model_type : String) : Except PyError PerfResult :=
  match get_model_performance st building_id model_type with
  | .not_found => .error .modelNotTrained
  | r => .ok r

/-- The operations a process lifetime performs on the manager's shared
dicts, with their injected clock/randomness. -/
inductive MgrOp
  | load (building_id model_type : String) (now : ℚ)
  | train (building_id model_type : String) (now acc mape rmse : ℚ)
deriving DecidableEq

def applyOp (st : ManagerState) : MgrOp → ManagerState
  | .load b t n => (load_model st b t n).2
  | .train b t n a m r => (train_model st b t n a m r).2

/-- The manager state after a list of operations from process start. -/
def runOps (ops : List MgrOp) : ManagerState := ops.foldl applyOp initManagerState

/-- The cache key an operation touches. -/
def opKey : MgrOp → String
  | .load b t _ => cache_key b t
  | .train b t _ _ _ _ => cache_key b t

/-- The (building, modelType) pair of an operation. -/
def opPair : MgrOp → String × String
  | .load b t _ => (b, t)
  | .train b t _ _ _ _ => (b, t)

def isTrainOp : MgrOp → Bool
  | .load _ _ _ => false
  | .train _ _ _ _ _ _ => true

/-- The numeric value of a digit run. -/
def natOfDigits (l : List Char) : ℕ :=
  l.foldl (fun a c => 10 * a + digitVal c) 0

/-- A recommendation with savings 0.001, finer than a cent: the one at
which the rounding of `calculate_savings` is visible. -/
def tinySavingsRec : OptimizationRecommendation :=
  { action_type := "shift_load"
    estimated_savings := 1/1000
    estimated_savings_pct := 0
    priority := 1
    window_start := 0
    window_end := 0 }

/-- A recommendation with savings 50, the concrete input of the spec's
calculateSavings example. -/
def fiftyRec : OptimizationRecommendation :=
  { action_type := "shift_load"
    estimated_savings := 50
    estimated_savings_pct := 0
    priority := 1
    window_start := 0
    window_end := 0 }

/-- A stored forecast record with no model metadata, issued at hour 10. -/
def sampleForecastData : ForecastData :=
  { id := "fc-7"
    ftype := "energy_demand"
    horizon := "24H"
    issued_at := 10
    series_item := [⟨11, 50000, 9/10⟩]
    valid_from := 10
    valid_to := 34
    meta_algo := none
    meta_ver := none
    scope_building := some "B1" }

/-- A service environment whose latest stored forecast is half an hour
old: the cache-reuse path of `request_forecast`. -/
def cacheHitEnv : ServiceEnv :=
  { building_exists := true
    latest_forecast := some sampleForecastData
    now := 21/2
    engine := { measurements := [], noise := fun _ => 0 }
    model_versions := fun _ _ => none }

def sampleRequest : ForecastRequest :=
  { building_id := "B1"
    horizon := "24H"
    forecast_type := "energy_demand"
    requested_by := "u1" }

/-- An environment with no cached forecast and an empty measurement
history: the InsufficientData path. -/
def c4Env : ServiceEnv :=
  { building_exists := true
    latest_forecast := none
    now := 0
    engine := { measurements := [], noise := fun _ => 0 }
    model_versions := fun _ _ => none }

/-- 168 hourly measurements of 100 W: exactly the one-week minimum. -/
def c8Measurements : List Measurement :=
  (List.range 168).map (fun i => ⟨i, 100⟩)

/-- An environment with a week of history and no cached forecast. -/
def c8Env : ServiceEnv :=
  { building_exists := true
    latest_forecast := none
    now := 200
    engine := { measurements := c8Measurements, noise := fun _ => 0 }
    model_versions := fun _ _ => none }

/-- A 31-hour request: the auto-selected LSTM accuracy 0.88 - 31/1000
falls below the 0.85 threshold, so the quality gate reports false. -/
def c8Req : ForecastRequest :=
  { building_id := "B1"
    horizon := "31H"
    forecast_type := "energy_demand"
    requested_by := "u1" }

/-- The series the engine produces for `c8Env`/`c8Req`. -/
def c8fv : List ForecastPoint :=
  (forecast_with_lstm (preprocess_data c8Measurements) 31 (fun _ => 0)).1

/-- Its accuracy: 0.88 - 31/1000 = 0.849, below the 0.85 threshold. -/
def c8acc : ℚ := 0.88 - ((31 : ℤ) : ℚ) / 1000

/-- A 90 kW forecast point at noon on a Monday (hour 12 of the epoch
week): inside the peak band, with no other point in the window. -/
def c1Point : ForecastPoint := ⟨12, 90000, 9/10⟩

/-- A 200 kW forecast point at noon on a Monday: its 20% shift saves
200 × 0.20 × 0.60 = 24 zł, above the 20 zł threshold. -/
def c1wPoint : ForecastPoint := ⟨12, 200000, 9/10⟩

/-- The predicate counting load-shift recommendations. -/
def isShiftLoad (r : OptimizationRecommendation) : Bool :=
  r.action_type == "shift_load"

/-- The "loaded, never trained on this cache key" invariant of a
manager state. -/
def LoadedOnly (k : String) (st : ManagerState) : Prop :=
  ∀ m : MLModel, st.models.lookup k = some m →
    m.version = default_version ∧ m.status = "loaded" ∧ m.training_samples = 720

deriving instance DecidableEq for Except

/-! ### Helper lemmas: characters and Python int parsing -/

theorem upperChar_digit (c : Char) (h : isAsciiDigit c = true) : upperChar c = c := by
  rw [isAsciiDigit, Bool.and_eq_true, decide_eq_true_eq, decide_eq_true_eq] at h
  rw [upperChar, if_neg]
  rw [Bool.and_eq_true, decide_eq_true_eq, decide_eq_true_eq]
  rintro ⟨ha, _⟩
  exact absurd (le_trans ha h.2) (by decide)

theorem isPySpace_false_of_digit (c : Char) (h : isAsciiDigit c = true) :
    isPySpace c = false := by
  rw [isPySpace]
  simp only [Bool.or_eq_false_iff, decide_eq_false_iff_not]
  refine ⟨⟨⟨⟨⟨?_, ?_⟩, ?_⟩, ?_⟩, ?_⟩, ?_⟩ <;> rintro rfl <;> revert h <;> decide

theorem digit_ne_plus (c : Char) (h : isAsciiDigit c = true) : c ≠ '+' := by
  rintro rfl; revert h; decide

theorem digit_ne_minus (c : Char) (h : isAsciiDigit c = true) : c ≠ '-' := by
  rintro rfl; revert h; decide

theorem dropWhile_eq_self_of_false (p : Char → Bool) (l : List Char)
    (h : ∀ c ∈ l, p c = false) : l.dropWhile p = l := by
  cases l with
  | nil => rfl
  | cons c t => rw [List.dropWhile_cons_of_neg]; simp [h c (by simp)]

theorem stripChars_eq_self (l : List Char) (h : ∀ c ∈ l, isPySpace c = false) :
    stripChars l = l := by
  rw [stripChars, dropWhile_eq_self_of_false _ l h,
    dropWhile_eq_self_of_false _ l.reverse (fun c hc => h c (List.mem_reverse.mp hc)),
    List.reverse_reverse]

theorem digitTail_digits (l : List Char) : ∀ acc : ℕ, (∀ c ∈ l, isAsciiDigit c = true) →
    digitTail acc l = some (l.foldl (fun a c => 10 * a + digitVal c) acc) := by
  induction l with
  | nil => intro acc _; rfl
  | cons c t ih =>
    intro acc h
    rw [digitTail.eq_def]
    simp only [h c (by simp), if_true]
    rw [ih _ (fun x hx => h x (by simp [hx]))]
    rfl

theorem digitPart_digits (l : List Char) (hne : l ≠ [])
    (h : ∀ c ∈ l, isAsciiDigit c = true) : digitPart l = some (natOfDigits l) := by
  cases l with
  | nil => exact absurd rfl hne
  | cons c t =>
    rw [digitPart, if_pos (h c (by simp)),
      digitTail_digits t _ (fun x hx => h x (by simp [hx]))]
    simp [natOfDigits]

theorem pyInt_digits (l : List Char) (hne : l ≠ [])
    (h : ∀ c ∈ l, isAsciiDigit c = true) : pyInt l = some ((natOfDigits l : ℤ)) := by
  have hs : stripChars l = l := stripChars_eq_self l (fun c hc => isPySpace_false_of_digit c (h c hc))
  cases l with
  | nil => exact absurd rfl hne
  | cons c t =>
    rw [pyInt]
    simp only [hs]
    rw [afterSign, if_neg (digit_ne_plus c (h c (by simp))),
      if_neg (digit_ne_minus c (h c (by simp)))]
    simp only
    rw [digitPart_digits (c :: t) (by simp) h]
    simp

theorem map_upperChar_eq_self (l : List Char) (h : ∀ c ∈ l, upperChar c = c) :
    l.map upperChar = l := by
  induction l with
  | nil => rfl
  | cons c t ih =>
    simp only [List.map_cons, h c (by simp)]
    rw [ih (fun x hx => h x (by simp [hx]))]

theorem parse_horizon_concat_H (s : String) (l : List Char) (hs : s.data = l ++ ['H'])
    (hne : l ≠ []) (hd : ∀ c ∈ l, isAsciiDigit c = true) :
    parse_horizon s = .ok (natOfDigits l) := by
  have hmap : (l ++ ['H']).map upperChar = l ++ ['H'] := by
    rw [List.map_append, map_upperChar_eq_self l (fun c hc => upperChar_digit c (hd c hc))]
    rfl
  rw [parse_horizon]
  simp only [hs, hmap, List.getLast?_concat, List.dropLast_concat,
    pyInt_digits l hne hd]

theorem parse_horizon_concat_D (s : String) (l : List Char) (hs : s.data = l ++ ['D'])
    (hne : l ≠ []) (hd : ∀ c ∈ l, isAsciiDigit c = true) :
    parse_horizon s = .ok ((natOfDigits l : ℤ) * 24) := by
  have hmap : (l ++ ['D']).map upperChar = l ++ ['D'] := by
    rw [List.map_append, map_upperChar_eq_self l (fun c hc => upperChar_digit c (hd c hc))]
    rfl
  rw [parse_horizon]
  simp only [hs, hmap, List.getLast?_concat, List.dropLast_concat,
    pyInt_digits l hne hd]

theorem parse_horizon_default (s : String) (c : Char) (hc : s.data.getLast? = some c)
    (h1 : upperChar c ≠ 'H') (h2 : upperChar c ≠ 'D') : parse_horizon s = .ok 24 := by
  rw [parse_horizon]
  have hu : (s.data.map upperChar).getLast? = some (upperChar c) := by
    rw [List.getLast?_map, hc]; rfl
  simp only [hu]
  split
  · rename_i heq; exact absurd (Option.some.inj heq) h1
  · rename_i heq; exact absurd (Option.some.inj heq) h2
  · rfl

theorem service_delta_default (s : String) (c : Char) (hc : s.data.getLast? = some c)
    (h1 : c ≠ 'H') (h2 : c ≠ 'D') : service_horizon_delta s = .ok 24 := by
  rw [service_horizon_delta]
  simp only [hc]
  split
  · rename_i heq; exact absurd (Option.some.inj heq) h1
  · rename_i heq; exact absurd (Option.some.inj heq) h2
  · rfl

/-! ### Claim C3: horizon parsing -/

/-- C3 (amended): horizon parsing maps a trailing "H" over an integer
prefix to the hour count and a trailing "D" to the day count times 24;
a string ending (case-insensitively) in neither H nor D parses to the
24 default without an error; in particular "1H" gives 1, "24H" gives 24,
"7D" gives 168 and "bogus" gives 24.  However a horizon that ends in H
or D without an integer prefix raises a ValueError instead of falling
back to 24 (see the counterexample), so the unqualified "any unparseable
horizon maps to 24 without raising" does not hold. -/
theorem c3_parse_horizon_amended :
    (∀ (s : String) (l : List Char), s.data = l ++ ['H'] → l ≠ [] →
      (∀ c ∈ l, isAsciiDigit c = true) → parse_horizon s = .ok (natOfDigits l))
    ∧ (∀ (s : String) (l : List Char), s.data = l ++ ['D'] → l ≠ [] →
      (∀ c ∈ l, isAsciiDigit c = true) →
      parse_horizon s = .ok ((natOfDigits l : ℤ) * 24))
    ∧ (∀ (s : String) (c : Char), s.data.getLast? = some c →
      upperChar c ≠ 'H' → upperChar c ≠ 'D' → parse_horizon s = .ok 24)
    ∧ parse_horizon "1H" = .ok 1 ∧ parse_horizon "24H" = .ok 24
    ∧ parse_horizon "7D" = .ok 168 ∧ parse_horizon "bogus" = .ok 24 := by
  refine ⟨parse_horizon_concat_H, parse_horizon_concat_D, parse_horizon_default,
    ?_, ?_, ?_, ?_⟩ <;> decide

/-- C3 counterexample: "H" has no integer prefix, and `_parse_horizon`
raises a ValueError on it (`int("")`), instead of returning the claimed
24 default. -/
theorem c3_counterexample : parse_horizon "H" = .error () := by decide

/-- C3 witness: the amended theorem applied at the concrete input "24H". -/
theorem c3_witness :
    (("24H" : String).data = ['2', '4'] ++ ['H'] ∧ ['2', '4'] ≠ [] ∧
      (∀ c ∈ ['2', '4'], isAsciiDigit c = true))
    ∧ parse_horizon "24H" = .ok (natOfDigits ['2', '4']) :=
  ⟨⟨by decide, by decide, by decide⟩,
    c3_parse_horizon_amended.1 "24H" ['2', '4'] (by decide) (by decide) (by decide)⟩

/-! ### Claim C5: service validity window vs engine horizon parsing -/

/-- C5 (amended): the validity-window width `request_forecast` computes
agrees with `ForecastEngine._parse_horizon` on every horizon string none
of whose characters is changed by upper-casing, and on every string
whose last character upper-cases to neither 'H' nor 'D'.  The two differ
on horizons with a lowercase 'h' or 'd' suffix, where the engine parses
the value but the service falls back to the 24-hour default (see the
counterexample), so they are not equivalent as functions of the horizon
string. -/
theorem c5_validity_vs_parse_amended :
    (∀ s : String, (∀ c ∈ s.data, upperChar c = c) →
      service_horizon_delta s = parse_horizon s)
    ∧ (∀ (s : String) (c : Char), s.data.getLast? = some c →
      upperChar c ≠ 'H' → upperChar c ≠ 'D' →
      service_horizon_delta s = parse_horizon s) := by
  constructor
  · intro s h
    rw [parse_horizon, service_horizon_delta, map_upperChar_eq_self s.data h]
  · intro s c hc h1 h2
    rw [parse_horizon_default s c hc h1 h2]
    refine service_delta_default s c hc ?_ ?_
    · rintro rfl; exact h1 (by decide)
    · rintro rfl; exact h2 (by decide)

/-- C5 counterexample: on "2h" the engine parses 2 hours while the
service's validity window is the 24-hour default — the two parsings are
different functions of the horizon string. -/
theorem c5_counterexample :
    service_horizon_delta "2h" = .ok 24 ∧ parse_horizon "2h" = .ok 2
    ∧ service_horizon_delta "2h" ≠ parse_horizon "2h" := by decide

/-- C5 witness: the amended theorem applied at the concrete input "24H". -/
theorem c5_witness :
    (∀ c ∈ ("24H" : String).data, upperChar c = c)
    ∧ service_horizon_delta "24H" = parse_horizon "24H" :=
  ⟨by decide, c5_validity_vs_parse_amended.1 "24H" (by decide)⟩

/-! ### Helper lemmas: rounding -/

theorem roundHalfEven_intCast (m : ℤ) : roundHalfEven (m : ℚ) = m := by
  simp only [roundHalfEven, Int.floor_intCast]
  norm_num

theorem roundHalfEven_floor_of_lt (x : ℚ) (n : ℤ) (h1 : Int.floor x = n)
    (h2 : x - n < 1/2) : roundHalfEven x = n := by
  simp only [roundHalfEven, h1]
  rw [if_pos h2]

/-- `round(x, 2)` is exact on values that are whole numbers of cents. -/
theorem pyRound2_eq_self (x : ℚ) (m : ℤ) (h : x * 100 = (m : ℚ)) : pyRound x 2 = x := by
  have h100 : ((10 ^ 2 : ℕ) : ℚ) = 100 := by norm_num
  rw [pyRound, h100, h, roundHalfEven_intCast, ← h, mul_div_assoc]
  norm_num

theorem sum_savings_cents (recs : List OptimizationRecommendation)
    (h : ∀ r ∈ recs, ∃ k : ℤ, r.estimated_savings * 100 = (k : ℚ)) :
    ∃ K : ℤ, ((recs.map (fun r => r.estimated_savings)).sum) * 100 = (K : ℚ) := by
  induction recs with
  | nil => exact ⟨0, by simp⟩
  | cons r t ih =>
    obtain ⟨k, hk⟩ := h r (by simp)
    obtain ⟨K, hK⟩ := ih (fun x hx => h x (by simp [hx]))
    exact ⟨k + K, by push_cast [List.map_cons, List.sum_cons, add_mul, hk, hK]; ring⟩

/-! ### Claim C7: calculate_savings -/

/-- C7 (amended): `calculate_savings` of an empty list is the all-zero
summary (no exception); for a nonempty list the totals are the 2-decimal
roundings of the savings sum S, of S×30 and of S×365 — so whenever every
recommendation's savings is a whole number of cents (as every
engine-produced recommendation's is), the totals equal S, S×30 and S×365
exactly — and the per-priority breakdown maps each priority 1..5 to the
sum of the savings of the recommendations having it.  A single
recommendation with savings 50 yields monthlyTotal 1500 and annualTotal
18250.  On savings of finer resolution the returned `total_daily` is the
rounded sum rather than the sum itself (see the counterexample). -/
theorem c7_calculate_savings_amended :
    calculate_savings [] = ⟨0, 0, 0, []⟩
    ∧ (∀ recs : List OptimizationRecommendation, recs ≠ [] →
        (calculate_savings recs).total_daily
            = pyRound ((recs.map (fun r => r.estimated_savings)).sum) 2
        ∧ (calculate_savings recs).total_monthly
            = pyRound ((recs.map (fun r => r.estimated_savings)).sum * 30) 2
        ∧ (calculate_savings recs).total_annual
            = pyRound ((recs.map (fun r => r.estimated_savings)).sum * 365) 2
        ∧ (∀ p ∈ [1, 2, 3, 4, 5], (calculate_savings recs).by_priority.lookup p
            = some (((recs.filter (fun r => r.priority == p)).map
                (fun r => r.estimated_savings)).sum)))
    ∧ (∀ recs : List OptimizationRecommendation, recs ≠ [] →
        (∀ r ∈ recs, ∃ k : ℤ, r.estimated_savings * 100 = (k : ℚ)) →
        (calculate_savings recs).total_daily
            = (recs.map (fun r => r.estimated_savings)).sum
        ∧ (calculate_savings recs).total_monthly
            = (recs.map (fun r => r.estimated_savings)).sum * 30
        ∧ (calculate_savings recs).total_annual
            = (recs.map (fun r => r.estimated_savings)).sum * 365)
    ∧ (∀ r : OptimizationRecommendation, r.estimated_savings = 50 →
        (calculate_savings [r]).total_monthly = 1500
        ∧ (calculate_savings [r]).total_annual = 18250) := by
  refine ⟨rfl, ?_, ?_, ?_⟩
  · intro recs hne
    have hE : recs.isEmpty = false := by
      cases recs with
      | nil => exact absurd rfl hne
      | cons a t => rfl
    refine ⟨by rw [calculate_savings, hE]; rfl, by rw [calculate_savings, hE]; rfl,
      by rw [calculate_savings, hE]; rfl, ?_⟩
    intro p hp
    rw [calculate_savings, hE]
    fin_cases hp <;> rfl
  · intro recs hne hcents
    obtain ⟨K, hK⟩ := sum_savings_cents recs hcents
    have hE : recs.isEmpty = false := by
      cases recs with
      | nil => exact absurd rfl hne
      | cons a t => rfl
    refine ⟨?_, ?_, ?_⟩
    · rw [calculate_savings, hE]
      exact pyRound2_eq_self _ K hK
    · rw [calculate_savings, hE]
      exact pyRound2_eq_self _ (30 * K) (by push_cast [← hK]; ring)
    · rw [calculate_savings, hE]
      exact pyRound2_eq_self _ (365 * K) (by push_cast [← hK]; ring)
  · intro r h50
    have h1 : ([r].map (fun x => x.estimated_savings)).sum = 50 := by simp [h50]
    constructor
    · rw [calculate_savings]
      rw [if_neg (by simp)]
      simp only [h1]
      rw [pyRound2_eq_self ((50 : ℚ) * 30) 150000 (by norm_num)]
      norm_num
    · rw [calculate_savings]
      rw [if_neg (by simp)]
      simp only [h1]
      rw [pyRound2_eq_self ((50 : ℚ) * 365) 1825000 (by norm_num)]
      norm_num

/-- C7 counterexample: for the single recommendation with savings 0.001
the returned daily total is the rounded 0, not the savings sum 0.001,
and the monthly total 0.03 is not 30 times the returned daily total —
the claimed exact-sum equations fail below cent resolution. -/
theorem c7_counterexample :
    (calculate_savings [tinySavingsRec]).total_daily = 0
    ∧ (calculate_savings [tinySavingsRec]).total_monthly = 3/100
    ∧ (([tinySavingsRec].map (fun r => r.estimated_savings)).sum = 1/1000)
    ∧ (calculate_savings [tinySavingsRec]).total_daily
        ≠ (([tinySavingsRec].map (fun r => r.estimated_savings)).sum)
    ∧ (calculate_savings [tinySavingsRec]).total_monthly
        ≠ (calculate_savings [tinySavingsRec]).total_daily * 30 := by
  have hsum : ([tinySavingsRec].map (fun r => r.estimated_savings)).sum = 1/1000 := by
    simp [tinySavingsRec]
  have hd : (calculate_savings [tinySavingsRec]).total_daily = 0 := by
    rw [calculate_savings, if_neg (by simp)]
    simp only [hsum]
    rw [pyRound]
    rw [show ((1 : ℚ)/1000 * ((10 : ℕ) ^ 2 : ℕ)) = 1/10 by norm_num]
    rw [roundHalfEven_floor_of_lt (1/10) 0 (by norm_num) (by norm_num)]
    norm_num
  have hm : (calculate_savings [tinySavingsRec]).total_monthly = 3/100 := by
    rw [calculate_savings, if_neg (by simp)]
    simp only [hsum]
    rw [show ((1 : ℚ)/1000 * 30) = 3/100 by norm_num]
    rw [pyRound2_eq_self (3/100) 3 (by norm_num)]
  refine ⟨hd, hm, hsum, ?_, ?_⟩
  · rw [hd, hsum]; norm_num
  · rw [hd, hm]; norm_num

/-- C7 witness: the amended theorem applied to the one-recommendation
list with savings 50 (a whole number of cents). -/
theorem c7_witness :
    fiftyRec.estimated_savings = 50
    ∧ (calculate_savings [fiftyRec]).total_monthly = 1500
    ∧ (calculate_savings [fiftyRec]).total_annual = 18250 :=
  ⟨rfl, c7_calculate_savings_amended.2.2.2 fiftyRec rfl⟩

/-! ### Helper lemmas: request_forecast paths -/

theorem request_forecast_cache_hit (env : ServiceEnv) (store : List CreatedForecast)
    (req : ForecastRequest) (fd : ForecastData) (hb : env.building_exists = true)
    (hf : env.latest_forecast = some fd) (hage : env.now - fd.issued_at < 1) :
    request_forecast env store req = ⟨.ok (convert_to_forecast_result fd), store, 0⟩ := by
  rw [request_forecast, hb, hf]
  simp only [Bool.true_eq_false, if_false]
  rw [request_forecast_existing, if_pos hage]

theorem request_forecast_cache_miss (env : ServiceEnv) (store : List CreatedForecast)
    (req : ForecastRequest) (hb : env.building_exists = true)
    (hmiss : ∀ fd, env.latest_forecast = some fd → ¬(env.now - fd.issued_at < 1)) :
    request_forecast env store req = request_forecast_generate env store req := by
  rw [request_forecast, hb]
  simp only [Bool.true_eq_false, if_false]
  cases hlf : env.latest_forecast with
  | none => rw [request_forecast_existing]
  | some fd => rw [request_forecast_existing, if_neg (hmiss fd hlf)]

/-! ### Claim C2: cache reuse within one hour -/

/-- C2: when the latest stored record for the requested key is under one
hour old, `request_forecast` returns its conversion — same forecast id
and series — runs the engine zero times and leaves the store unchanged. -/
theorem c2_cache_reuse (env : ServiceEnv) (store : List CreatedForecast)
    (req : ForecastRequest) (fd : ForecastData) (hb : env.building_exists = true)
    (hf : env.latest_forecast = some fd) (hage : env.now - fd.issued_at < 1) :
    request_forecast env store req = ⟨.ok (convert_to_forecast_result fd), store, 0⟩
    ∧ (convert_to_forecast_result fd).forecast_id = fd.id
    ∧ (convert_to_forecast_result fd).values = fd.series_item
    ∧ (convert_to_forecast_result fd).horizon = fd.horizon
    ∧ (convert_to_forecast_result fd).forecast_type = fd.ftype :=
  ⟨request_forecast_cache_hit env store req fd hb hf hage, rfl, rfl, rfl, rfl⟩

/-- C2 witness: the theorem at a store whose latest record is half an
hour old. -/
theorem c2_witness :
    (cacheHitEnv.building_exists = true
      ∧ cacheHitEnv.latest_forecast = some sampleForecastData
      ∧ cacheHitEnv.now - sampleForecastData.issued_at < 1)
    ∧ request_forecast cacheHitEnv [] sampleRequest
        = ⟨.ok (convert_to_forecast_result sampleForecastData), [], 0⟩ :=
  ⟨⟨rfl, rfl, by norm_num [cacheHitEnv, sampleForecastData]⟩,
    (c2_cache_reuse cacheHitEnv [] sampleRequest sampleForecastData rfl rfl
      (by norm_num [cacheHitEnv, sampleForecastData])).1⟩

/-! ### Claim C9: stored-record conversion constants -/

/-- C9: every result assembled from a stored record — the cache-reuse
path of `request_forecast`, `get_forecast`, and `get_latest_forecast` —
goes through `convert_to_forecast_result`, whose accuracy is the
constant 0.88 whatever the stored record holds, and which substitutes
model "LSTM" and version "1.4.2" when the stored model metadata lacks
those keys. -/
theorem c9_stored_conversion_constants :
    (∀ fd : ForecastData, (convert_to_forecast_result fd).accuracy = 0.88
      ∧ (fd.meta_algo = none → (convert_to_forecast_result fd).model_used = "LSTM")
      ∧ (fd.meta_ver = none → (convert_to_forecast_result fd).model_version = "1.4.2"))
    ∧ (∀ (env : ServiceEnv) (store : List CreatedForecast) (req : ForecastRequest)
        (fd : ForecastData), env.building_exists = true →
        env.latest_forecast = some fd → env.now - fd.issued_at < 1 →
        (request_forecast env store req).result = .ok (convert_to_forecast_result fd))
    ∧ (∀ fd : ForecastData, get_forecast (some fd) = some (convert_to_forecast_result fd))
    ∧ (∀ fd : ForecastData,
        get_latest_forecast (some fd) = some (convert_to_forecast_result fd)) := by
  refine ⟨?_, ?_, fun fd => rfl, fun fd => rfl⟩
  · intro fd
    refine ⟨rfl, fun h => ?_, fun h => ?_⟩
    · rw [convert_to_forecast_result]
      simp only [h, Option.getD_none]
    · rw [convert_to_forecast_result]
      simp only [h, Option.getD_none]
  · intro env store req fd hb hf hage
    rw [request_forecast_cache_hit env store req fd hb hf hage]

/-- C9 witness: the theorem at a record with empty model metadata. -/
theorem c9_witness :
    ((convert_to_forecast_result sampleForecastData).accuracy = 0.88
      ∧ (convert_to_forecast_result sampleForecastData).model_used = "LSTM"
      ∧ (convert_to_forecast_result sampleForecastData).model_version = "1.4.2")
    ∧ (request_forecast cacheHitEnv [] sampleRequest).result
        = .ok (convert_to_forecast_result sampleForecastData) :=
  ⟨⟨(c9_stored_conversion_constants.1 sampleForecastData).1,
    (c9_stored_conversion_constants.1 sampleForecastData).2.1 rfl,
    (c9_stored_conversion_constants.1 sampleForecastData).2.2 rfl⟩,
    c9_stored_conversion_constants.2.1 cacheHitEnv [] sampleRequest sampleForecastData rfl rfl
      (by norm_num [cacheHitEnv, sampleForecastData])⟩

/-! ### Claim C4: InsufficientData below 168 measurements -/

/-- C4: when the measurement source returns fewer than 168 points (and
the horizon parses, which precedes the data check), the engine raises
InsufficientData, `request_forecast` translates it into the
caller-facing ValueError, and the ForecastStore is left exactly as it
was — no write happens. -/
theorem c4_insufficient_data (env : ServiceEnv) (store : List CreatedForecast)
    (req : ForecastRequest) (hb : env.building_exists = true)
    (hmiss : ∀ fd, env.latest_forecast = some fd → ¬(env.now - fd.issued_at < 1))
    (hlen : env.engine.measurements.length < 168)
    (hparse : ∃ n, parse_horizon req.horizon = .ok n) :
    generate_forecast env.engine req.horizon = .error .insufficientData
    ∧ request_forecast env store req = ⟨.error .valueError, store, 1⟩ := by
  obtain ⟨n, hn⟩ := hparse
  have hg : generate_forecast env.engine req.horizon = .error .insufficientData := by
    have h1 : generate_forecast env.engine req.horizon
        = generate_forecast_checked env.engine n := by
      rw [generate_forecast, hn]
    rw [h1, generate_forecast_checked, if_pos (by omega)]
  refine ⟨hg, ?_⟩
  rw [request_forecast_cache_miss env store req hb hmiss, request_forecast_generate, hg]

/-- C4 witness: the theorem at an empty measurement history. -/
theorem c4_witness :
    (c4Env.building_exists = true
      ∧ (∀ fd, c4Env.latest_forecast = some fd → ¬(c4Env.now - fd.issued_at < 1))
      ∧ c4Env.engine.measurements.length < 168
      ∧ parse_horizon sampleRequest.horizon = .ok 24)
    ∧ generate_forecast c4Env.engine sampleRequest.horizon = .error .insufficientData
    ∧ request_forecast c4Env [] sampleRequest = ⟨.error .valueError, [], 1⟩ := by
  refine ⟨⟨rfl, by simp [c4Env], by decide, by decide⟩, ?_⟩
  exact c4_insufficient_data c4Env [] sampleRequest rfl (by simp [c4Env]) (by decide)
    ⟨24, by decide⟩

/-! ### Claim C6: generated-series invariants -/

theorem lastTimestamp_eq (data : List Measurement) (hne : data ≠ []) :
    lastTimestamp data = (data.getLast hne).timestamp := by
  rw [lastTimestamp, List.getLast?_eq_getLast data hne]
  rfl

/-- C6: for every preprocessed history, every hours-ahead count ≥ 1 and
every draw of the injected noise, both prediction strategies return a
series whose length is the hours-ahead count, whose i-th timestamp is
exactly one hour after the last observed timestamp plus i (hourly steps),
and whose every value is ≥ 0 (the `max(0, ...)` floor). -/
theorem c6_series_invariants (data : List Measurement) (hours_ahead : ℤ)
    (noise : ℕ → ℚ) (hne : data ≠ []) (hha : 1 ≤ hours_ahead) :
    (((forecast_with_lstm data hours_ahead noise).1.length : ℤ) = hours_ahead
      ∧ ∀ (i : ℕ) (hi : i < (forecast_with_lstm data hours_ahead noise).1.length),
        (((forecast_with_lstm data hours_ahead noise).1.get ⟨i, hi⟩).timestamp
            = (data.getLast hne).timestamp + 1 + i
          ∧ 0 ≤ ((forecast_with_lstm data hours_ahead noise).1.get ⟨i, hi⟩).value))
    ∧ (((forecast_with_xgboost data hours_ahead noise).1.length : ℤ) = hours_ahead
      ∧ ∀ (i : ℕ) (hi : i < (forecast_with_xgboost data hours_ahead noise).1.length),
        (((forecast_with_xgboost data hours_ahead noise).1.get ⟨i, hi⟩).timestamp
            = (data.getLast hne).timestamp + 1 + i
          ∧ 0 ≤ ((forecast_with_xgboost data hours_ahead noise).1.get ⟨i, hi⟩).value)) := by
  have hnn : (0 : ℤ) ≤ hours_ahead := le_trans (by norm_num) hha
  constructor
  · constructor
    · simp only [forecast_with_lstm, List.length_map, List.length_range]
      exact Int.toNat_of_nonneg hnn
    · intro i hi
      constructor
      · simp only [forecast_with_lstm, List.get_eq_getElem, List.getElem_map,
          List.getElem_range, lastTimestamp_eq data hne]
      · simp only [forecast_with_lstm, List.get_eq_getElem, List.getElem_map,
          List.getElem_range]
        exact le_max_left 0 _
  · constructor
    · simp only [forecast_with_xgboost, List.length_map, List.length_range]
      exact Int.toNat_of_nonneg hnn
    · intro i hi
      constructor
      · simp only [forecast_with_xgboost, List.get_eq_getElem, List.getElem_map,
          List.getElem_range, lastTimestamp_eq data hne]
      · simp only [forecast_with_xgboost, List.get_eq_getElem, List.getElem_map,
          List.getElem_range]
        exact le_max_left 0 _

/-- C6 witness: the theorem at a one-point history, hours-ahead 1 and
the zero noise draw. -/
theorem c6_witness :
    (([⟨0, 100⟩] : List Measurement) ≠ [] ∧ (1 : ℤ) ≤ 1)
    ∧ ((((forecast_with_lstm [⟨0, 100⟩] 1 (fun _ => 0)).1.length : ℤ) = 1)
      ∧ (((forecast_with_xgboost [⟨0, 100⟩] 1 (fun _ => 0)).1.length : ℤ) = 1)) :=
  ⟨⟨by simp, le_refl 1⟩,
    (c6_series_invariants [⟨0, 100⟩] 1 (fun _ => 0) (by simp) (le_refl 1)).1.1,
    (c6_series_invariants [⟨0, 100⟩] 1 (fun _ => 0) (by simp) (le_refl 1)).2.1⟩

/-! ### Claim C8: the quality gate only logs -/

theorem request_forecast_generate_ok (env : ServiceEnv) (store : List CreatedForecast)
    (req : ForecastRequest) (fv : List ForecastPoint) (acc : ℚ) (mu : String)
    (hgen : generate_forecast env.engine req.horizon = .ok (fv, acc, mu)) :
    request_forecast_generate env store req
      = request_forecast_store env store req fv acc mu := by
  rw [request_forecast_generate, hgen]

theorem request_forecast_store_ok (env : ServiceEnv) (store : List CreatedForecast)
    (req : ForecastRequest) (fv : List ForecastPoint) (acc : ℚ) (mu : String) (d : ℤ)
    (hd : service_horizon_delta req.horizon = .ok d) :
    request_forecast_store env store req fv acc mu
      = request_forecast_persist env store req fv acc mu d := by
  rw [request_forecast_store, hd]

/-- C8: whenever `validate_results` reports false on the engine's run,
`generate_forecast` still returns the series and accuracy unchanged (it
never raises on the verdict) and `request_forecast` still persists the
forecast — one record is appended to the store and the result carries
the very series and accuracy the gate rejected. -/
theorem c8_soft_quality_gate (env : ServiceEnv) (store : List CreatedForecast)
    (req : ForecastRequest) (fv : List ForecastPoint) (acc : ℚ) (mu : String)
    (hb : env.building_exists = true)
    (hmiss : ∀ fd, env.latest_forecast = some fd → ¬(env.now - fd.issued_at < 1))
    (hgen : generate_forecast env.engine req.horizon = .ok (fv, acc, mu))
    (hdelta : ∃ d : ℤ, service_horizon_delta req.horizon = .ok d)
    (hval : validate_results fv acc 0.85 = false) :
    ∃ (res : ForecastResult) (rec : CreatedForecast),
      request_forecast env store req = ⟨.ok res, store ++ [rec], 1⟩
      ∧ res.values = fv ∧ res.accuracy = acc ∧ res.model_used = mu
      ∧ rec.series_data = fv := by
  obtain ⟨d, hd⟩ := hdelta
  rw [request_forecast_cache_miss env store req hb hmiss,
    request_forecast_generate_ok env store req fv acc mu hgen,
    request_forecast_store_ok env store req fv acc mu d hd]
  exact ⟨_, _, rfl, rfl, rfl, rfl, rfl⟩

set_option maxRecDepth 8000 in
/-- C8 witness: the theorem at a week of flat history and a 31-hour
horizon, where the mock LSTM accuracy 0.849 is below the 0.85 threshold
and the gate reports false. -/
theorem c8_witness :
    (c8Env.building_exists = true
      ∧ generate_forecast c8Env.engine c8Req.horizon = .ok (c8fv, c8acc, "LSTM")
      ∧ service_horizon_delta c8Req.horizon = .ok 31
      ∧ validate_results c8fv c8acc 0.85 = false)
    ∧ ∃ (res : ForecastResult) (rec : CreatedForecast),
      request_forecast c8Env [] c8Req = ⟨.ok res, [] ++ [rec], 1⟩
      ∧ res.values = c8fv ∧ res.accuracy = c8acc ∧ res.model_used = "LSTM"
      ∧ rec.series_data = c8fv := by
  have hval : validate_results c8fv c8acc 0.85 = false := by
    rw [validate_results, if_pos (by rw [c8acc]; norm_num)]
  refine ⟨⟨rfl, rfl, by decide, hval⟩, ?_⟩
  exact c8_soft_quality_gate c8Env [] c8Req c8fv c8acc "LSTM" rfl (by simp [c8Env]) rfl
    ⟨31, by decide⟩ hval

/-! ### Helper lemmas: recommendation sorting and counting -/

theorem countP_insertRec (x : OptimizationRecommendation)
    (l : List OptimizationRecommendation) (p : OptimizationRecommendation → Bool) :
    (insertRec x l).countP p = (x :: l).countP p := by
  induction l with
  | nil => rfl
  | cons y ys ih =>
    rw [insertRec]
    by_cases h : recLe x y = true
    · rw [if_pos h]
    · rw [if_neg h]
      simp only [List.countP_cons, ih]
      omega

theorem countP_sortRecs (l : List OptimizationRecommendation)
    (p : OptimizationRecommendation → Bool) : (sortRecs l).countP p = l.countP p := by
  induction l with
  | nil => rfl
  | cons x xs ih => rw [sortRecs, countP_insertRec, List.countP_cons, List.countP_cons, ih]

theorem mem_insertRec (x y : OptimizationRecommendation)
    (l : List OptimizationRecommendation) : y ∈ insertRec x l ↔ y = x ∨ y ∈ l := by
  induction l with
  | nil => simp [insertRec]
  | cons z zs ih =>
    rw [insertRec]
    by_cases h : recLe x z = true
    · rw [if_pos h]; simp
    · rw [if_neg h]
      simp only [List.mem_cons, ih]
      tauto

theorem mem_sortRecs (y : OptimizationRecommendation)
    (l : List OptimizationRecommendation) : y ∈ sortRecs l ↔ y ∈ l := by
  induction l with
  | nil => simp [sortRecs]
  | cons x xs ih =>
    rw [sortRecs, mem_insertRec]
    simp only [List.mem_cons, ih]

/-! ### Helper lemmas: the descending peak sort -/

theorem mem_insertPeakDesc (x y : ForecastPoint) (l : List ForecastPoint) :
    y ∈ insertPeakDesc x l ↔ y = x ∨ y ∈ l := by
  induction l with
  | nil => simp [insertPeakDesc]
  | cons z zs ih =>
    rw [insertPeakDesc]
    by_cases h : kwOf z < kwOf x
    · rw [if_pos h]; simp
    · rw [if_neg h]
      simp only [List.mem_cons, ih]
      tauto

theorem mem_sortPeakDesc (y : ForecastPoint) (l : List ForecastPoint) :
    y ∈ sortPeakDesc l ↔ y ∈ l := by
  induction l with
  | nil => simp [sortPeakDesc]
  | cons x xs ih =>
    rw [sortPeakDesc, mem_insertPeakDesc]
    simp only [List.mem_cons, ih]

theorem sortPeakDesc_head_ge (l : List ForecastPoint) :
    ∀ (x : ForecastPoint) (xs : List ForecastPoint), sortPeakDesc l = x :: xs →
    ∀ y ∈ l, kwOf y ≤ kwOf x := by
  induction l with
  | nil => intro x xs h; cases h
  | cons a as ih =>
    intro x xs h y hy
    rw [sortPeakDesc] at h
    cases hs : sortPeakDesc as with
    | nil =>
      rw [hs, insertPeakDesc] at h
      obtain ⟨rfl, -⟩ := List.cons.inj h
      rcases List.mem_cons.mp hy with rfl | hmem
      · exact le_refl _
      · exact absurd ((mem_sortPeakDesc y as).mpr hmem) (by rw [hs]; simp)
    | cons b bs =>
      rw [hs, insertPeakDesc] at h
      by_cases hba : kwOf b < kwOf a
      · rw [if_pos hba] at h
        obtain ⟨rfl, -⟩ := List.cons.inj h
        rcases List.mem_cons.mp hy with rfl | hmem
        · exact le_refl _
        · exact le_trans (ih b bs hs y hmem) (le_of_lt hba)
      · rw [if_neg hba] at h
        obtain ⟨rfl, -⟩ := List.cons.inj h
        rcases List.mem_cons.mp hy with rfl | hmem
        · exact not_lt.mp hba
        · exact ih b bs hs y hmem

/-! ### Helper lemmas: the three analyses and load-shift counting -/

theorem shift_from_top_isShift (top : ForecastPoint)
    (r : OptimizationRecommendation) (hr : r ∈ shift_from_top top) :
    isShiftLoad r = true := by
  rw [shift_from_top] at hr
  by_cases h1 : (80 : ℚ) < kwOf top
  · simp only [if_pos h1] at hr
    by_cases h2 : min_savings_threshold
        ≤ kwOf top * 0.20 * (peak_rate - super_off_peak_rate)
    · simp only [if_pos h2] at hr
      rcases List.mem_singleton.mp hr with rfl
      rfl
    · simp only [if_neg h2] at hr
      cases hr
  · simp only [if_neg h1] at hr
    cases hr

theorem analyze_load_shifting_nil_of_le (w : List ForecastPoint)
    (h80 : ∀ p ∈ w, inPeakBand p = true → kwOf p ≤ 80) :
    analyze_load_shifting w = [] := by
  rw [analyze_load_shifting]
  cases hs : sortPeakDesc (w.filter inPeakBand) with
  | nil => rfl
  | cons top rest =>
    have htop : top ∈ w.filter inPeakBand :=
      (mem_sortPeakDesc top _).mp (hs ▸ List.mem_cons_self top rest)
    obtain ⟨hw, hband⟩ := List.mem_filter.mp htop
    show shift_from_top top = []
    rw [shift_from_top, if_neg (not_lt.mpr (h80 top hw hband))]

theorem analyze_load_shifting_top (w : List ForecastPoint) (v : ℚ)
    (hmax : ∀ p ∈ w, inPeakBand p = true → kwOf p ≤ v)
    (hex : ∃ p ∈ w, inPeakBand p = true ∧ kwOf p = v) :
    ∃ top, kwOf top = v ∧ analyze_load_shifting w = shift_from_top top := by
  obtain ⟨p, hpw, hpband, hpv⟩ := hex
  have hpf : p ∈ w.filter inPeakBand := List.mem_filter.mpr ⟨hpw, hpband⟩
  have hps : p ∈ sortPeakDesc (w.filter inPeakBand) := (mem_sortPeakDesc p _).mpr hpf
  cases hs : sortPeakDesc (w.filter inPeakBand) with
  | nil => rw [hs] at hps; cases hps
  | cons top rest =>
    have htop : top ∈ w.filter inPeakBand :=
      (mem_sortPeakDesc top _).mp (hs ▸ List.mem_cons_self top rest)
    obtain ⟨hw2, hband2⟩ := List.mem_filter.mp htop
    have hle : kwOf top ≤ v := hmax top hw2 hband2
    have hge : v ≤ kwOf top := by
      rw [← hpv]
      exact sortPeakDesc_head_ge (w.filter inPeakBand) top rest hs p hpf
    refine ⟨top, le_antisymm hle hge, ?_⟩
    rw [analyze_load_shifting, hs]

theorem shift_from_top_above (top : ForecastPoint) (hv : 80 < kwOf top)
    (hsav : min_savings_threshold ≤ kwOf top * 0.20 * (peak_rate - super_off_peak_rate)) :
    shift_from_top top =
      [{ action_type := "shift_load"
         estimated_savings := pyRound (kwOf top * 0.20 * (peak_rate - super_off_peak_rate)) 2
         estimated_savings_pct :=
           pyRound (kwOf top * 0.20 * (peak_rate - super_off_peak_rate)
             / (kwOf top * peak_rate) * 100) 1
         priority := 1
         window_start := top.timestamp
         window_end := (top.timestamp : ℚ) + 1 }] := by
  rw [shift_from_top]
  simp only [if_pos hv, if_pos hsav]

theorem shift_from_top_below (top : ForecastPoint)
    (hsav : kwOf top * 0.20 * (peak_rate - super_off_peak_rate) < min_savings_threshold) :
    shift_from_top top = [] := by
  rw [shift_from_top]
  by_cases h1 : (80 : ℚ) < kwOf top
  · simp only [if_pos h1, if_neg (not_le.mpr hsav)]
  · simp only [if_neg h1]

theorem peak_reduction_core_not_shift (a b : ℚ) (pk : ForecastPoint)
    (r : OptimizationRecommendation) (hr : r ∈ peak_reduction_core a b pk) :
    isShiftLoad r = false := by
  rw [peak_reduction_core] at hr
  by_cases h1 : b * 1.3 < a
  · simp only [if_pos h1] at hr
    by_cases h2 : min_savings_threshold ≤ (a - b * 1.2) * 0.5 * 60 / 30
    · simp only [if_pos h2] at hr
      rcases List.mem_singleton.mp hr with rfl
      rfl
    · simp only [if_neg h2] at hr
      cases hr
  · simp only [if_neg h1] at hr
    cases hr

theorem analyze_peak_reduction_not_shift (w : List ForecastPoint)
    (recs : List OptimizationRecommendation) (h : analyze_peak_reduction w = .ok recs)
    (r : OptimizationRecommendation) (hr : r ∈ recs) : isShiftLoad r = false := by
  cases w with
  | nil => cases h
  | cons p ps =>
    rw [analyze_peak_reduction] at h
    rcases Except.ok.inj h with rfl
    exact peak_reduction_core_not_shift _ _ _ r hr

theorem analyze_temperature_not_shift (w : List ForecastPoint) (cc : ℚ)
    (r : OptimizationRecommendation)
    (hr : r ∈ analyze_temperature_optimization w cc) : isShiftLoad r = false := by
  induction w with
  | nil => cases hr
  | cons p rest ih =>
    rw [analyze_temperature_optimization.eq_def] at hr
    simp only at hr
    by_cases h1 : (22 ≤ hourOf p.timestamp ∨ hourOf p.timestamp < 6)
        ∨ (weekdayOf p.timestamp = 5 ∨ weekdayOf p.timestamp = 6)
    · simp only [if_pos h1] at hr
      by_cases h2 : min_savings_threshold ≤ cc * 0.45 * 0.10 * super_off_peak_rate
      · simp only [if_pos h2] at hr
        rcases List.mem_singleton.mp hr with rfl
        rfl
      · simp only [if_neg h2] at hr
        exact ih hr
    · simp only [if_neg h1] at hr
      exact ih hr

theorem generate_recommendations_ok (fv : List ForecastPoint) (cc : ℚ) (trh : ℕ)
    (recs pr : List OptimizationRecommendation)
    (hp : analyze_peak_reduction (fv.take trh) = .ok pr)
    (h : generate_recommendations fv cc trh = .ok recs) :
    recs = sortRecs (analyze_load_shifting (fv.take trh) ++ pr
      ++ analyze_temperature_optimization (fv.take trh) cc) := by
  rw [generate_recommendations, hp] at h
  exact (Except.ok.inj h).symm

theorem analyze_peak_reduction_ok (fv : List ForecastPoint) (trh : ℕ)
    (hne : fv.take trh ≠ []) :
    ∃ pr, analyze_peak_reduction (fv.take trh) = .ok pr := by
  cases hw : fv.take trh with
  | nil => exact absurd hw hne
  | cons p ps => exact ⟨_, by rw [analyze_peak_reduction]⟩

/-! ### Claim C1: load-shifting recommendations -/

/-- C1 (amended): over the first `time_range_hours` forecast points,
whenever `generate_recommendations` returns at all: (a) if no point of
the peak band [09:00, 21:00) exceeds 80 kW it emits zero load-shift
recommendations; (b) if the band's maximum demand is v with 80 < v and
the shift savings 0.20·v·(peakRate − superOffPeakRate) reach the 20-unit
minimum threshold, it emits exactly one load-shift recommendation, of
priority 1 with savings round(0.20·v·(peakRate − superOffPeakRate), 2);
(c) if 0.20·v·(peakRate − superOffPeakRate) falls below the threshold it
emits zero load-shift recommendations — in particular a 90 kW peak
(savings 10.8 < 20) yields zero, not the one recommendation the original
claim asserts (see the counterexample). -/
theorem c1_load_shifting_amended :
    (∀ (fv : List ForecastPoint) (cc : ℚ) (trh : ℕ)
        (recs : List OptimizationRecommendation),
      (∀ p ∈ fv.take trh, inPeakBand p = true → kwOf p ≤ 80) →
      generate_recommendations fv cc trh = .ok recs →
      recs.countP isShiftLoad = 0)
    ∧ (∀ (fv : List ForecastPoint) (cc : ℚ) (trh : ℕ) (v : ℚ)
        (recs : List OptimizationRecommendation),
      (∀ p ∈ fv.take trh, inPeakBand p = true → kwOf p ≤ v) →
      (∃ p ∈ fv.take trh, inPeakBand p = true ∧ kwOf p = v) →
      80 < v →
      min_savings_threshold ≤ v * 0.20 * (peak_rate - super_off_peak_rate) →
      generate_recommendations fv cc trh = .ok recs →
      recs.countP isShiftLoad = 1
      ∧ ∀ r ∈ recs, isShiftLoad r = true → r.priority = 1
          ∧ r.estimated_savings
            = pyRound (v * 0.20 * (peak_rate - super_off_peak_rate)) 2)
    ∧ (∀ (fv : List ForecastPoint) (cc : ℚ) (trh : ℕ) (v : ℚ)
        (recs : List OptimizationRecommendation),
      (∀ p ∈ fv.take trh, inPeakBand p = true → kwOf p ≤ v) →
      (∃ p ∈ fv.take trh, inPeakBand p = true ∧ kwOf p = v) →
      v * 0.20 * (peak_rate - super_off_peak_rate) < min_savings_threshold →
      generate_recommendations fv cc trh = .ok recs →
      recs.countP isShiftLoad = 0) := by
  have hwin : ∀ (fv : List ForecastPoint) (cc : ℚ) (trh : ℕ)
      (recs : List OptimizationRecommendation),
      generate_recommendations fv cc trh = .ok recs →
      ∃ pr, analyze_peak_reduction (fv.take trh) = .ok pr
        ∧ recs.countP isShiftLoad
            = (analyze_load_shifting (fv.take trh)).countP isShiftLoad
        ∧ ∀ r ∈ recs, isShiftLoad r = true → r ∈ analyze_load_shifting (fv.take trh) := by
    intro fv cc trh recs h
    have hne : fv.take trh ≠ [] := by
      intro hw
      rw [generate_recommendations, hw] at h
      cases h
    obtain ⟨pr, hp⟩ := analyze_peak_reduction_ok fv trh hne
    obtain rfl := generate_recommendations_ok fv cc trh recs pr hp h
    refine ⟨pr, hp, ?_, ?_⟩
    · rw [countP_sortRecs, List.countP_append, List.countP_append]
      have hpr : pr.countP isShiftLoad = 0 :=
        List.countP_eq_zero.mpr (fun r hr => by
          simp [analyze_peak_reduction_not_shift (fv.take trh) pr hp r hr])
      have htp : (analyze_temperature_optimization (fv.take trh) cc).countP isShiftLoad
          = 0 :=
        List.countP_eq_zero.mpr (fun r hr => by
          simp [analyze_temperature_not_shift (fv.take trh) cc r hr])
      omega
    · intro r hr hshift
      rcases List.mem_append.mp ((mem_sortRecs r _).mp hr) with h1 | h4
      · rcases List.mem_append.mp h1 with h2 | h3
        · exact h2
        · exact absurd hshift
            (by simp [analyze_peak_reduction_not_shift (fv.take trh) pr hp r h3])
      · exact absurd hshift
          (by simp [analyze_temperature_not_shift (fv.take trh) cc r h4])
  refine ⟨?_, ?_, ?_⟩
  · intro fv cc trh recs h80 h
    obtain ⟨pr, hp, hcount, -⟩ := hwin fv cc trh recs h
    rw [hcount, analyze_load_shifting_nil_of_le (fv.take trh) h80]
    rfl
  · intro fv cc trh v recs hmax hex hv hsav h
    obtain ⟨pr, hp, hcount, hmem⟩ := hwin fv cc trh recs h
    obtain ⟨top, htv, hshift⟩ := analyze_load_shifting_top (fv.take trh) v hmax hex
    have hrec := shift_from_top_above top (htv ▸ hv) (by rw [htv]; exact hsav)
    constructor
    · rw [hcount, hshift, hrec]
      rfl
    · intro r hr hsr
      have := hmem r hr hsr
      rw [hshift, hrec] at this
      rcases List.mem_singleton.mp this with rfl
      exact ⟨rfl, by simp only [htv]⟩
  · intro fv cc trh v recs hmax hex hsav h
    obtain ⟨pr, hp, hcount, -⟩ := hwin fv cc trh recs h
    obtain ⟨top, htv, hshift⟩ := analyze_load_shifting_top (fv.take trh) v hmax hex
    rw [hcount, hshift, shift_from_top_below top (by rw [htv]; exact hsav)]
    rfl

theorem generate_recommendations_eq (fv : List ForecastPoint) (cc : ℚ) (trh : ℕ)
    (pr : List OptimizationRecommendation)
    (hp : analyze_peak_reduction (fv.take trh) = .ok pr) :
    generate_recommendations fv cc trh
      = .ok (sortRecs (analyze_load_shifting (fv.take trh) ++ pr
        ++ analyze_temperature_optimization (fv.take trh) cc)) := by
  rw [generate_recommendations, hp]

/-- C1 counterexample: the window holding the single 90 kW point at
12:00 — inside [09:00, 21:00), no other qualifying peak — produces NO
recommendation at all: the shift savings 0.20×90×(1.05−0.45) = 10.8 zł
fall below the 20 zł minimum-savings threshold, so zero priority-1
load-shift recommendations are emitted, not the one the claim asserts. -/
theorem c1_counterexample :
    generate_recommendations [c1Point] 50 24 = .ok []
    ∧ inPeakBand c1Point = true ∧ kwOf c1Point = 90 := by
  have htake : (([c1Point] : List ForecastPoint).take 24) = [c1Point] := rfl
  have hmax : ∀ p ∈ ([c1Point] : List ForecastPoint).take 24,
      inPeakBand p = true → kwOf p ≤ 90 := by
    rw [htake]
    intro p hp _
    rcases List.mem_singleton.mp hp with rfl
    norm_num [kwOf, c1Point]
  have hex : ∃ p ∈ ([c1Point] : List ForecastPoint).take 24,
      inPeakBand p = true ∧ kwOf p = 90 := by
    refine ⟨c1Point, ?_, by decide, by norm_num [kwOf, c1Point]⟩
    rw [htake]
    exact List.mem_singleton.mpr rfl
  obtain ⟨top, htv, hshift⟩ :=
    analyze_load_shifting_top (([c1Point] : List ForecastPoint).take 24) 90 hmax hex
  have hsb : shift_from_top top = [] := by
    refine shift_from_top_below top ?_
    rw [htv]
    norm_num [peak_rate, super_off_peak_rate, min_savings_threshold]
  have hpeak : analyze_peak_reduction [c1Point] = .ok [] := by
    rw [analyze_peak_reduction]
    congr 1
    rw [peak_reduction_core, if_neg]
    simp only [List.foldl_nil, List.map_cons, List.map_nil, listMean]
    norm_num [c1Point]
  have htemp : analyze_temperature_optimization [c1Point] 50 = [] := by
    rw [analyze_temperature_optimization.eq_def]
    simp only
    rw [if_neg (by decide)]
    rfl
  have h := generate_recommendations_eq [c1Point] 50 24 [] (by rw [htake]; exact hpeak)
  rw [hshift, hsb, htake, htemp] at h
  exact ⟨h, by decide, by norm_num [kwOf, c1Point]⟩

/-- C1 witness: the amended theorem's exactly-one case at the single
200 kW point, whose shift savings 24 zł clear the threshold. -/
theorem c1_witness :
    ∃ recs : List OptimizationRecommendation,
      ((∀ p ∈ ([c1wPoint] : List ForecastPoint).take 24,
          inPeakBand p = true → kwOf p ≤ 200)
        ∧ (∃ p ∈ ([c1wPoint] : List ForecastPoint).take 24,
          inPeakBand p = true ∧ kwOf p = 200)
        ∧ (80 : ℚ) < 200
        ∧ min_savings_threshold ≤ 200 * 0.20 * (peak_rate - super_off_peak_rate)
        ∧ generate_recommendations [c1wPoint] 50 24 = .ok recs)
      ∧ recs.countP isShiftLoad = 1 := by
  have htake : (([c1wPoint] : List ForecastPoint).take 24) = [c1wPoint] := rfl
  have hmax : ∀ p ∈ ([c1wPoint] : List ForecastPoint).take 24,
      inPeakBand p = true → kwOf p ≤ 200 := by
    rw [htake]
    intro p hp _
    rcases List.mem_singleton.mp hp with rfl
    norm_num [kwOf, c1wPoint]
  have hex : ∃ p ∈ ([c1wPoint] : List ForecastPoint).take 24,
      inPeakBand p = true ∧ kwOf p = 200 := by
    refine ⟨c1wPoint, ?_, by decide, by norm_num [kwOf, c1wPoint]⟩
    rw [htake]
    exact List.mem_singleton.mpr rfl
  have hv : (80 : ℚ) < 200 := by norm_num
  have hsav : min_savings_threshold ≤ 200 * 0.20 * (peak_rate - super_off_peak_rate) := by
    norm_num [peak_rate, super_off_peak_rate, min_savings_threshold]
  have hpeak : analyze_peak_reduction [c1wPoint] = .ok [] := by
    rw [analyze_peak_reduction]
    congr 1
    rw [peak_reduction_core, if_neg]
    simp only [List.foldl_nil, List.map_cons, List.map_nil, listMean]
    norm_num [c1wPoint]
  have h := generate_recommendations_eq [c1wPoint] 50 24 [] (by rw [htake]; exact hpeak)
  exact ⟨_, ⟨hmax, hex, hv, hsav, h⟩,
    (c1_load_shifting_amended.2.1 [c1wPoint] 50 24 200 _ hmax hex hv hsav h).1⟩

/-! ### Helper lemmas: the manager's dicts and traces -/

theorem lookup_aupdate {β : Type} (k : String) (v : β) (l : List (String × β)) :
    (aupdate k v l).lookup k = some v := by
  induction l with
  | nil => simp [aupdate, List.lookup]
  | cons h t ih =>
    rw [aupdate]
    by_cases hk : h.1 = k
    · rw [if_pos hk]
      simp [List.lookup]
    · rw [if_neg hk]
      rw [List.lookup]
      have : (k == h.1) = false := by
        simp only [beq_eq_false_iff_ne, ne_eq]
        exact fun he => hk he.symm
      rw [this]
      exact ih

theorem lookup_aupdate_ne {β : Type} (k k2 : String) (v : β) (l : List (String × β))
    (hne : k2 ≠ k) : (aupdate k v l).lookup k2 = l.lookup k2 := by
  induction l with
  | nil =>
    simp only [aupdate, List.lookup]
    rw [show (k2 == k) = false by simpa using hne]
  | cons h t ih =>
    rw [aupdate]
    by_cases hk : h.1 = k
    · rw [if_pos hk]
      rw [List.lookup, List.lookup]
      rw [show (k2 == k) = false by simpa using hne,
        show (k2 == h.1) = false by simp [hk ▸ hne]]
    · rw [if_neg hk]
      rw [List.lookup, List.lookup]
      by_cases h2 : k2 = h.1
      · rw [show (k2 == h.1) = true by simpa using h2]
      · rw [show (k2 == h.1) = false by simpa using h2]
        exact ih

theorem lookup_models_applyOp (st : ManagerState) (op : MgrOp) (k : String) :
    ((applyOp st op).models.lookup k).isSome = true
      ↔ (st.models.lookup k).isSome = true ∨ opKey op = k := by
  cases op with
  | train b t n a m r =>
    rw [applyOp, train_model]
    simp only [opKey]
    by_cases hk : cache_key b t = k
    · rw [hk, lookup_aupdate]
      simp [hk]
    · rw [lookup_aupdate_ne _ _ _ _ (fun he => hk he.symm)]
      simp [hk]
  | load b t n =>
    rw [applyOp, load_model]
    simp only [opKey]
    cases hc : st.models.lookup (cache_key b t) with
    | some m =>
      simp only
      by_cases hk : cache_key b t = k
      · rw [← hk, hc]
        simp [hk]
      · simp [hk]
    | none =>
      simp only
      by_cases hk : cache_key b t = k
      · rw [hk, lookup_aupdate]
        simp [hk]
      · rw [lookup_aupdate_ne _ _ _ _ (fun he => hk he.symm)]
        simp [hk]

theorem lookup_models_foldl (ops : List MgrOp) (st : ManagerState) (k : String) :
    (((ops.foldl applyOp st).models.lookup k).isSome = true)
      ↔ ((st.models.lookup k).isSome = true ∨ ∃ op ∈ ops, opKey op = k) := by
  induction ops generalizing st with
  | nil => simp
  | cons op rest ih =>
    rw [List.foldl_cons, ih, lookup_models_applyOp]
    simp only [List.mem_cons]
    constructor
    · rintro (⟨h | h⟩ | ⟨o, ho, hk⟩)
      · exact Or.inl h
      · exact Or.inr ⟨op, Or.inl rfl, h⟩
      · exact Or.inr ⟨o, Or.inr ho, hk⟩
    · rintro (h | ⟨o, rfl | ho, hk⟩)
      · exact Or.inl (Or.inl h)
      · exact Or.inl (Or.inr hk)
      · exact Or.inr ⟨o, ho, hk⟩

theorem lookup_models_runOps (ops : List MgrOp) (k : String) :
    (((runOps ops).models.lookup k).isSome = true) ↔ ∃ op ∈ ops, opKey op = k := by
  rw [runOps, lookup_models_foldl]
  simp [initManagerState, List.lookup]

theorem get_model_performance_not_found_iff (st : ManagerState) (b t : String) :
    get_model_performance st b t = .not_found
      ↔ st.models.lookup (cache_key b t) = none := by
  rw [get_model_performance, get_model_info]
  cases hc : st.models.lookup (cache_key b t) with
  | none => simp
  | some m => simp

theorem loadedOnly_applyOp (st : ManagerState) (op : MgrOp) (k : String)
    (hop : ¬(isTrainOp op = true ∧ opKey op = k)) (hst : LoadedOnly k st) :
    LoadedOnly k (applyOp st op) := by
  cases op with
  | train b t n a m r =>
    intro m2 hm2
    rw [applyOp, train_model] at hm2
    simp only at hm2
    have hk : cache_key b t ≠ k := fun he => hop ⟨rfl, he⟩
    rw [lookup_aupdate_ne _ _ _ _ (fun he => hk he.symm)] at hm2
    exact hst m2 hm2
  | load b t n =>
    intro m2 hm2
    rw [applyOp, load_model] at hm2
    cases hc : st.models.lookup (cache_key b t) with
    | some m0 =>
      rw [hc] at hm2
      simp only at hm2
      exact hst m2 hm2
    | none =>
      rw [hc] at hm2
      simp only at hm2
      by_cases hk : k = cache_key b t
      · rw [hk, lookup_aupdate] at hm2
        rcases Option.some.inj hm2 with rfl
        exact ⟨rfl, rfl, rfl⟩
      · rw [lookup_aupdate_ne _ _ _ _ hk] at hm2
        exact hst m2 hm2

theorem loadedOnly_foldl (ops : List MgrOp) (st : ManagerState) (k : String)
    (hops : ∀ op ∈ ops, ¬(isTrainOp op = true ∧ opKey op = k)) (hst : LoadedOnly k st) :
    LoadedOnly k (ops.foldl applyOp st) := by
  induction ops generalizing st with
  | nil => exact hst
  | cons op rest ih =>
    rw [List.foldl_cons]
    exact ih _ (fun o ho => hops o (by simp [ho]))
      (loadedOnly_applyOp st op k (hops op (by simp)) hst)

theorem metrics_applyOp_load (st : ManagerState) (b t : String) (n : ℚ) :
    (applyOp st (.load b t n)).performance_metrics = st.performance_metrics := by
  rw [applyOp, load_model]
  cases hc : st.models.lookup (cache_key b t) with
  | some m => rfl
  | none => rfl

theorem perf_after_load (st : ManagerState) (b t : String) (now : ℚ)
    (hLO : LoadedOnly (cache_key b t) st)
    (hm : st.performance_metrics.lookup (cache_key b t ++ "_" ++ default_version) = none) :
    ∃ ta : ℚ, get_model_performance (applyOp st (.load b t now)) b t
      = .metrics t default_version 0 0 0 720 ta "needs_retraining" := by
  cases hc : st.models.lookup (cache_key b t) with
  | some m =>
    obtain ⟨hv, hs, hts⟩ := hLO m hc
    have happ : applyOp st (.load b t now) = st := by rw [applyOp, load_model, hc]
    refine ⟨m.trained_at, ?_⟩
    rw [happ, get_model_performance, get_model_info, hc]
    simp only
    rw [hv, hm, hts]
    simp only [Option.map_none', Option.getD_none]
    rw [if_neg (by norm_num)]
  | none =>
    refine ⟨now, ?_⟩
    rw [applyOp, load_model, hc]
    simp only
    rw [get_model_performance, get_model_info]
    simp only
    rw [lookup_aupdate]
    simp only
    rw [hm]
    simp only [Option.map_none', Option.getD_none]
    rw [if_neg (by norm_num)]

/-! ### Claim C10: loaded-but-untrained models and the not-found sentinel -/

/-- C10 (amended): with model identity taken as the concatenated cache
key `building_id ++ "_" ++ model_type` (the actual dict key): after a
`load_model` for a key no training ever touched (and no colliding
metrics entry under `key_1.4.2`), `get_model_performance` returns a
metrics record with accuracy, mape and rmse all 0.0 and status
"needs_retraining" — not the not-found sentinel — so the service's
`get_model_performance` does not raise ModelNotTrained; and the
sentinel (hence ModelNotTrained) occurs exactly when no load or train
of this process used that cache key.  Because distinct
(building, modelType) pairs can share a cache key (underscores), the
original pair-level "exactly when the pair was never loaded nor
trained" fails (see the counterexample). -/
theorem c10_model_performance_amended :
    (∀ (ops : List MgrOp) (b t : String) (now : ℚ),
      (∀ op ∈ ops, ¬(isTrainOp op = true ∧ opKey op = cache_key b t)) →
      (runOps ops).performance_metrics.lookup
        (cache_key b t ++ "_" ++ default_version) = none →
      (∃ ta : ℚ, get_model_performance (runOps (ops ++ [.load b t now])) b t
          = .metrics t default_version 0 0 0 720 ta "needs_retraining")
      ∧ ∃ r, service_get_model_performance (runOps (ops ++ [.load b t now])) b t = .ok r)
    ∧ (∀ (ops : List MgrOp) (b t : String),
      (get_model_performance (runOps ops) b t = .not_found
        ↔ ∀ op ∈ ops, opKey op ≠ cache_key b t)
      ∧ (service_get_model_performance (runOps ops) b t = .error .modelNotTrained
        ↔ ∀ op ∈ ops, opKey op ≠ cache_key b t)) := by
  constructor
  · intro ops b t now hops hm
    have hrun : runOps (ops ++ [.load b t now]) = applyOp (runOps ops) (.load b t now) := by
      rw [runOps, List.foldl_append]
      rfl
    have hLO : LoadedOnly (cache_key b t) (runOps ops) := by
      refine loadedOnly_foldl ops initManagerState _ hops ?_
      intro m hm2
      simp [initManagerState, List.lookup] at hm2
    obtain ⟨ta, hperf⟩ := perf_after_load (runOps ops) b t now hLO hm
    rw [hrun]
    refine ⟨⟨ta, hperf⟩,
      ⟨.metrics t default_version 0 0 0 720 ta "needs_retraining", ?_⟩⟩
    rw [service_get_model_performance, hperf]
  · intro ops b t
    have hiff : get_model_performance (runOps ops) b t = .not_found
        ↔ ∀ op ∈ ops, opKey op ≠ cache_key b t := by
      rw [get_model_performance_not_found_iff]
      rw [Option.eq_none_iff_forall_not_mem]
      constructor
      · intro h op hop hk
        have h2 := (lookup_models_runOps ops (cache_key b t)).mpr ⟨op, hop, hk⟩
        rw [Option.isSome_iff_exists] at h2
        obtain ⟨m, hm⟩ := h2
        exact h m hm
      · intro h m hm
        have h2 : (((runOps ops).models.lookup (cache_key b t)).isSome = true) := by
          rw [hm]
          rfl
        obtain ⟨op, hop, hk⟩ := (lookup_models_runOps ops (cache_key b t)).mp h2
        exact h op hop hk
    refine ⟨hiff, ?_⟩
    rw [← hiff, service_get_model_performance]
    cases hp : get_model_performance (runOps ops) b t with
    | not_found => simp [hp]
    | metrics a1 a2 a3 a4 a5 a6 a7 a8 => simp

/-- C10 counterexample: after loading the pair ("a", "b_c") — sharing
the cache key "a_b_c" with the pair ("a_b", "c") — the performance query
for ("a_b", "c") does NOT return the not-found sentinel although that
pair was never loaded nor trained, refuting the pair-level "exactly
when" of the claim. -/
theorem c10_counterexample :
    get_model_performance (runOps [.load ("a") ("b_c") 0]) ("a_b") ("c")
        ≠ PerfResult.not_found
    ∧ ∀ op ∈ [MgrOp.load ("a") ("b_c") 0], opPair op ≠ (("a_b"), ("c")) := by
  constructor
  · intro h
    rw [get_model_performance_not_found_iff] at h
    have h2 := (lookup_models_runOps [MgrOp.load ("a") ("b_c") 0] (cache_key ("a_b") ("c"))).mpr
      ⟨MgrOp.load ("a") ("b_c") 0, by simp, by decide⟩
    rw [h] at h2
    cases h2
  · intro op hop
    rcases List.mem_singleton.mp hop with rfl
    decide

/-- C10 witness: the amended theorem at the empty prior trace and the
pair ("B1", "LSTM"). -/
theorem c10_witness :
    ((∀ op ∈ ([] : List MgrOp), ¬(isTrainOp op = true ∧ opKey op = cache_key "B1" "LSTM"))
      ∧ (runOps []).performance_metrics.lookup
          (cache_key "B1" "LSTM" ++ "_" ++ default_version) = none)
    ∧ ((∃ ta : ℚ, get_model_performance (runOps ([] ++ [.load "B1" "LSTM" 0])) "B1" "LSTM"
        = .metrics "LSTM" default_version 0 0 0 720 ta "needs_retraining")
      ∧ ∃ r, service_get_model_performance (runOps ([] ++ [.load "B1" "LSTM" 0]))
          "B1" "LSTM" = .ok r) :=
  ⟨⟨by simp, rfl⟩,
    c10_model_performance_amended.1 [] "B1" "LSTM" 0 (by simp) rfl⟩
